import Mathlib

/-
Shallow embedding of the memory-management core of the apple2go emulator:
the MMU bank catalogue and page table (mmu.go), the IOU soft-switch engine
(iou.go) and the keyboard latch (keyboard.go).  Machine integers are
modelled as Nat with explicit wrap-around (% 0x10000 for uint16 values at
the operation boundaries); byte slices become functions Nat → Nat; the Go
page table of bank pointers becomes a function from page index to
Option (bankType × bankID) (pointer equality on &banks[typ][id] coincides
with equality of the (typ, id) pair, since every bank pointer stored into
the page table is the address of the array cell banks[typ][id]).
-/

namespace Apple2

/-- Bank identifiers, from the bankID enumeration in mmu.go. -/
inductive bankID where
  | bankSystemCXROM     -- $C100..$CFFF (Cx ROM)
  | bankSystemDEFROM    -- $D000..$FFFF (DEF ROM)
  | bankZeroStackRAM    -- $0000..$01FF (ZeroPage+Stack)
  | bankMainRAM         -- $0200..$BFFF (Lower 48K)
  | bankLangCardDX1RAM  -- $D000..$DFFF (Dx Bank 1)
  | bankLangCardDX2RAM  -- $D000..$DFFF (Dx Bank 2)
  | bankLangCardEFRAM   -- $E000..$FFFF (EF RAM)
  | bankDisplayPage1    -- $0400..$07FF (Text+LoRes page 1)
  | bankDisplayPage2    -- $0800..$0BFF (Text+LoRes page 2)
  | bankHiRes1          -- $2000..$3FFF (HiRes page 1)
  | bankHiRes2          -- $4000..$5FFF (HiRes page 2)
  | bankIOSwitches      -- $C000..$C0FF (IOU soft switches)
  | bankSlotROM         -- $C100..$C7FF (Slot ROM)
  | bankExpansionROM    -- $C800..$CFFF (Expansion ROM)
  deriving DecidableEq

export bankID (bankSystemCXROM bankSystemDEFROM bankZeroStackRAM bankMainRAM
  bankLangCardDX1RAM bankLangCardDX2RAM bankLangCardEFRAM bankDisplayPage1
  bankDisplayPage2 bankHiRes1 bankHiRes2 bankIOSwitches bankSlotROM
  bankExpansionROM)

/-- Bank variants, from the bankType enumeration in mmu.go. -/
inductive bankType where
  | bankTypeMain
  | bankTypeAux
  deriving DecidableEq

export bankType (bankTypeMain bankTypeAux)

/-- Access bit mask value for reads (mmu.go: read access = 1 << 0). -/
def read : Nat := 1

/-- Access bit mask value for writes (mmu.go: write access = 1 << 1). -/
def write : Nat := 2

/-- Physical memory regions owned by the mmu: mainRAM, auxRAM and systemROM. -/
inductive memRegion where
  | mainR
  | auxR
  | romR
  deriving DecidableEq

/-- Machine state: the mmu's RAM/ROM images and its page table of 256
entries (one per 256-byte page of the 16-bit address space, as in the Go
array pages [256]page), and the iou's switch bitmap, pending-update mask
and the keyboard latch state. -/
@[ext]
structure Machine where
  mainRAM : Nat → Nat
  auxRAM : Nat → Nat
  systemROM : Nat → Nat
  pageRead : Fin 256 → Option (bankType × bankID)
  pageWrite : Fin 256 → Option (bankType × bankID)
  switches : Nat
  updates : Nat
  keydata : Nat
  keydown : Bool

/-- Page index of a 16-bit address: its high byte (addr >> 8). -/
def pageIndex (addr : Nat) : Fin 256 :=
  ⟨(addr % 0x10000) >>> 8, by
    rw [Nat.shiftRight_eq_div_pow]
    exact Nat.div_lt_of_lt_mul (by omega)⟩

/-- Base virtual address of each bank, per the addXXXBank calls in mmu.Init.
The (aux, DisplayPage2) and (aux, HiRes2) banks are never added, so their
slot keeps the zero value of the Go bank struct (baseAddr 0, size 0). -/
def bankBaseAddr : bankType → bankID → Nat
  | _, bankSystemCXROM => 0xc100
  | _, bankSystemDEFROM => 0xd000
  | _, bankIOSwitches => 0xc000
  | _, bankSlotROM => 0xc100
  | _, bankExpansionROM => 0xc800
  | _, bankZeroStackRAM => 0x0000
  | _, bankMainRAM => 0x0200
  | _, bankDisplayPage1 => 0x0400
  | bankTypeMain, bankDisplayPage2 => 0x0800
  | bankTypeAux, bankDisplayPage2 => 0
  | _, bankHiRes1 => 0x2000
  | bankTypeMain, bankHiRes2 => 0x4000
  | bankTypeAux, bankHiRes2 => 0
  | _, bankLangCardDX1RAM => 0xd000
  | _, bankLangCardDX2RAM => 0xd000
  | _, bankLangCardEFRAM => 0xe000

/-- Byte size of each bank, per the slice lengths in mmu.Init. -/
def bankSize : bankType → bankID → Nat
  | _, bankSystemCXROM => 0x0f00
  | _, bankSystemDEFROM => 0x3000
  | _, bankIOSwitches => 0x0100
  | _, bankSlotROM => 0x0700
  | _, bankExpansionROM => 0x0800
  | _, bankZeroStackRAM => 0x0200
  | _, bankMainRAM => 0xbe00
  | _, bankDisplayPage1 => 0x0400
  | bankTypeMain, bankDisplayPage2 => 0x0400
  | bankTypeAux, bankDisplayPage2 => 0
  | _, bankHiRes1 => 0x2000
  | bankTypeMain, bankHiRes2 => 0x4000
  | bankTypeAux, bankHiRes2 => 0
  | _, bankLangCardDX1RAM => 0x1000
  | _, bankLangCardDX2RAM => 0x1000
  | _, bankLangCardEFRAM => 0x2000

/-- Backing storage of each bank: the region and the physical start offset
of its slice, per the addRAMBank/addROMBank calls in mmu.Init.  Note that
mmu.Init backs the bankTypeAux variant of bankZeroStackRAM with
m.mainRAM[0x0000:0x0200] (mmu.go line 496), not with auxRAM; this is
translated faithfully.  IO banks have no memory slice (mem nil). -/
def bankMem : bankType → bankID → Option (memRegion × Nat)
  | _, bankSystemCXROM => some (memRegion.romR, 0x0100)
  | _, bankSystemDEFROM => some (memRegion.romR, 0x1000)
  | _, bankIOSwitches => none
  | _, bankSlotROM => none
  | _, bankExpansionROM => none
  | bankTypeMain, bankZeroStackRAM => some (memRegion.mainR, 0x0000)
  | bankTypeMain, bankMainRAM => some (memRegion.mainR, 0x0200)
  | bankTypeMain, bankDisplayPage1 => some (memRegion.mainR, 0x0400)
  | bankTypeMain, bankDisplayPage2 => some (memRegion.mainR, 0x0800)
  | bankTypeMain, bankHiRes1 => some (memRegion.mainR, 0x2000)
  | bankTypeMain, bankHiRes2 => some (memRegion.mainR, 0x4000)
  | bankTypeMain, bankLangCardDX1RAM => some (memRegion.mainR, 0xc000)
  | bankTypeMain, bankLangCardDX2RAM => some (memRegion.mainR, 0xd000)
  | bankTypeMain, bankLangCardEFRAM => some (memRegion.mainR, 0xe000)
  | bankTypeAux, bankZeroStackRAM => some (memRegion.mainR, 0x0000)
  | bankTypeAux, bankMainRAM => some (memRegion.auxR, 0x0200)
  | bankTypeAux, bankDisplayPage1 => some (memRegion.auxR, 0x0400)
  | bankTypeAux, bankDisplayPage2 => none
  | bankTypeAux, bankHiRes1 => some (memRegion.auxR, 0x2000)
  | bankTypeAux, bankHiRes2 => none
  | bankTypeAux, bankLangCardDX1RAM => some (memRegion.auxR, 0xc000)
  | bankTypeAux, bankLangCardDX2RAM => some (memRegion.auxR, 0xd000)
  | bankTypeAux, bankLangCardEFRAM => some (memRegion.auxR, 0xe000)

/-- Read a byte of a physical memory region. -/
def memRead (m : Machine) : memRegion → Nat → Nat
  | memRegion.mainR, i => m.mainRAM i
  | memRegion.auxR, i => m.auxRAM i
  | memRegion.romR, i => m.systemROM i

/-- Write a byte of a physical memory region. -/
def memWrite (m : Machine) (r : memRegion) (i v : Nat) : Machine :=
  match r with
  | memRegion.mainR => { m with mainRAM := fun j => if j = i then v else m.mainRAM j }
  | memRegion.auxR => { m with auxRAM := fun j => if j = i then v else m.auxRAM j }
  | memRegion.romR => { m with systemROM := fun j => if j = i then v else m.systemROM j }

/-- GetBankAccess (mmu.go): which of read/write is presently served by the
bank, judged from the page-table entry at the bank's first page. -/
def GetBankAccess (m : Machine) (id : bankID) (typ : bankType) : Nat :=
  let p := pageIndex (bankBaseAddr typ id)
  (if m.pageRead p = some (typ, id) then read else 0) |||
  (if m.pageWrite p = some (typ, id) then write else 0)

/-- ActivateBank (mmu.go): map every page in the bank's range for reads
and/or writes per the access mask; a no-op when the current access of the
bank already equals the requested mask. -/
def ActivateBank (m : Machine) (id : bankID) (typ : bankType) (acc : Nat) : Machine :=
  if GetBankAccess m id typ = acc then m
  else
    let p0 := bankBaseAddr typ id >>> 8
    let pn := p0 + (bankSize typ id >>> 8)
    { m with
      pageRead := fun p =>
        if acc &&& read ≠ 0 ∧ p0 ≤ p.val ∧ p.val < pn then some (typ, id) else m.pageRead p
      pageWrite := fun p =>
        if acc &&& write ≠ 0 ∧ p0 ≤ p.val ∧ p.val < pn then some (typ, id) else m.pageWrite p }

/-- Soft switch indices, from the ioSwitch enumeration in iou.go. -/
def ioSwitchAUXRAMRD : Nat := 0
def ioSwitchAUXRAMWRT : Nat := 1
def ioSwitchALTCHARSET : Nat := 2
def ioSwitchTEXT : Nat := 3
def ioSwitchMIXED : Nat := 4
def ioSwitch80COL : Nat := 5
def ioSwitch80STORE : Nat := 6
def ioSwitchPAGE2 : Nat := 7
def ioSwitchHIRES : Nat := 8
def ioSwitchDHIRES : Nat := 9
def ioSwitchIOUDIS : Nat := 10
def ioSwitchALTZP : Nat := 11
def ioSwitchLCRAMRD : Nat := 12
def ioSwitchLCRAMWRT : Nat := 13
def ioSwitchLCBANK2 : Nat := 14
def ioSwitchCXROM : Nat := 15
def ioSwitchC3ROM : Nat := 16
def ioSwitchVBLINT : Nat := 17
def ioSwitchANNUNCIATOR0 : Nat := 18
def ioSwitchANNUNCIATOR1 : Nat := 19
def ioSwitchANNUNCIATOR2 : Nat := 20
def ioSwitchANNUNCIATOR3 : Nat := 21

/-- Count of soft switches (the ioSwitches terminator of the enumeration). -/
def ioSwitches : Nat := 22

/-- Pending-update group masks (iou.go). -/
def updateSystemRAM : Nat := 1
def updateZPSRAM : Nat := 2
def updateLCRAM : Nat := 4

/-- Static switch-to-update-mask table (iou.go: var switchUpdates). -/
def switchUpdates : List Nat :=
  [updateSystemRAM ||| updateLCRAM,   -- ioSwitchAUXRAMRD
   updateSystemRAM ||| updateLCRAM,   -- ioSwitchAUXRAMWRT
   0,                                 -- ioSwitchALTCHARSET
   0,                                 -- ioSwitchTEXT
   0,                                 -- ioSwitchMIXED
   0,                                 -- ioSwitch80COL
   updateSystemRAM,                   -- ioSwitch80STORE
   updateSystemRAM,                   -- ioSwitchPAGE2
   updateSystemRAM,                   -- ioSwitchHIRES
   0,                                 -- ioSwitchDHIRES
   0,                                 -- ioSwitchIOUDIS
   updateZPSRAM,                      -- ioSwitchALTZP
   updateLCRAM,                       -- ioSwitchLCRAMRD
   updateLCRAM,                       -- ioSwitchLCRAMWRT
   updateLCRAM,                       -- ioSwitchLCBANK2
   0, 0, 0, 0, 0, 0, 0]

/-- testSoftSwitch (iou.go). -/
def testSoftSwitch (m : Machine) (sw : Nat) : Bool :=
  m.switches &&& (1 <<< sw) != 0

/-- getSoftSwitchBit7 (iou.go). -/
def getSoftSwitchBit7 (m : Machine) (sw : Nat) : Nat :=
  if m.switches &&& (1 <<< sw) != 0 then 0x80 else 0

/-- setSoftSwitch (iou.go): set or clear the switch bit (uint32 arithmetic),
and OR the switch's update mask into the pending updates only when the
switch value actually changed. -/
def setSoftSwitch (m : Machine) (sw : Nat) (v : Bool) : Machine :=
  let orig := m.switches
  let s := if v then orig ||| (1 <<< sw) else orig &&& (0xffffffff ^^^ (1 <<< sw))
  if orig ≠ s then
    { m with switches := s, updates := m.updates ||| switchUpdates.getD sw 0 }
  else
    { m with switches := s }

/-- selectBankType (iou.go). -/
def selectBankType (m : Machine) (sw : Nat) (onResult offResult : bankType) : bankType :=
  if testSoftSwitch m sw then onResult else offResult

/-- selectBank (iou.go). -/
def selectBank (m : Machine) (sw : Nat) (onResult offResult : bankID) : bankID :=
  if testSoftSwitch m sw then onResult else offResult

/-- Keyboard: GetKeyData (keyboard.go). -/
def GetKeyData (m : Machine) : Nat := m.keydata

/-- Keyboard: IsKeyDown (keyboard.go). -/
def IsKeyDown (m : Machine) : Bool := m.keydown

/-- Keyboard strobe bit (keyboard.go: keyStrobe = 0x80). -/
def keyStrobe : Nat := 0x80

/-- Keyboard: ResetKeyStrobe (keyboard.go): keydata &= ^keyStrobe, i.e.
clear bit 7 of the byte (the complement of 0x80 in a byte is 0x7f). -/
def ResetKeyStrobe (m : Machine) : Machine :=
  { m with keydata := m.keydata &&& 0x7f }

/-- applyZPSRAMSwitches (iou.go). -/
def applyZPSRAMSwitches (m : Machine) : Machine :=
  if testSoftSwitch m ioSwitchALTZP then
    ActivateBank m bankZeroStackRAM bankTypeAux (read ||| write)
  else
    ActivateBank m bankZeroStackRAM bankTypeMain (read ||| write)

/-- applySystemRAMSwitches (iou.go). -/
def applySystemRAMSwitches (m : Machine) : Machine :=
  let btr := selectBankType m ioSwitchAUXRAMRD bankTypeAux bankTypeMain
  let btw := selectBankType m ioSwitchAUXRAMWRT bankTypeAux bankTypeMain
  let m1 := ActivateBank m bankMainRAM btr read
  let m2 := ActivateBank m1 bankMainRAM btw write
  if testSoftSwitch m2 ioSwitch80STORE then
    let bt := selectBankType m2 ioSwitchPAGE2 bankTypeAux bankTypeMain
    let m3 := ActivateBank m2 bankDisplayPage1 bt (read ||| write)
    if testSoftSwitch m3 ioSwitchHIRES then
      ActivateBank m3 bankHiRes1 bt (read ||| write)
    else m3
  else
    let dp := selectBank m2 ioSwitchPAGE2 bankDisplayPage2 bankDisplayPage1
    let m3 := ActivateBank m2 dp bankTypeMain (read ||| write)
    if testSoftSwitch m3 ioSwitchHIRES then
      let hi := selectBank m3 ioSwitchPAGE2 bankHiRes2 bankHiRes1
      ActivateBank m3 hi bankTypeMain (read ||| write)
    else m3

/-- applyLCRAMSwitches (iou.go). -/
def applyLCRAMSwitches (m : Machine) : Machine :=
  let btr := selectBankType m ioSwitchAUXRAMRD bankTypeAux bankTypeMain
  let btw := selectBankType m ioSwitchAUXRAMWRT bankTypeAux bankTypeMain
  let lcbank := selectBank m ioSwitchLCBANK2 bankLangCardDX2RAM bankLangCardDX1RAM
  let m2 :=
    if testSoftSwitch m ioSwitchLCRAMRD then
      let ma := ActivateBank m bankLangCardEFRAM btr read
      ActivateBank ma lcbank btr read
    else
      ActivateBank m bankSystemDEFROM bankTypeMain read
  if testSoftSwitch m2 ioSwitchLCRAMWRT then
    let mb := ActivateBank m2 bankLangCardEFRAM btw write
    ActivateBank mb lcbank btw write
  else
    ActivateBank m2 bankSystemDEFROM bankTypeMain write

/-- applySwitchUpdates (iou.go): apply the pending reconfiguration groups
(ZPS, then system RAM, then LC RAM) and clear the pending mask. -/
def applySwitchUpdates (m : Machine) : Machine :=
  if m.updates = 0 then m
  else
    let m1 := if m.updates &&& updateZPSRAM ≠ 0 then applyZPSRAMSwitches m else m
    let m2 := if m1.updates &&& updateSystemRAM ≠ 0 then applySystemRAMSwitches m1 else m1
    let m3 := if m2.updates &&& updateLCRAM ≠ 0 then applyLCRAMSwitches m2 else m2
    { m3 with updates := 0 }

/-- Static C00x write-to-switch table (iou.go: var switchWriteC00x),
indexed by offset >> 1. -/
def switchWriteC00x : List Nat :=
  [ioSwitch80STORE, ioSwitchAUXRAMRD, ioSwitchAUXRAMWRT, ioSwitchCXROM,
   ioSwitchALTZP, ioSwitchC3ROM, ioSwitch80COL, ioSwitchALTCHARSET]

/-- onSwitchReadC00x (iou.go): offset 0x00 returns the keyboard data byte,
all other C00x reads return 0. -/
def onSwitchReadC00x (m : Machine) (addr : Nat) : Nat × Machine :=
  if addr = 0x00 then (GetKeyData m, m) else (0, m)

/-- onSwitchWriteC00x (iou.go): even offset turns the table's switch off,
odd offset turns it on. -/
def onSwitchWriteC00x (m : Machine) (addr : Nat) (v : Nat) : Machine :=
  let sw := switchWriteC00x.getD (addr >>> 1) 0
  setSoftSwitch m sw (addr &&& 1 == 1)

/-- Static C01x read-to-switch table (iou.go: var switchReadC01x), indexed
by offset − 0x10 (the 0xc010 entry is the keyboard latch, handled apart). -/
def switchReadC01x : List Nat :=
  [ioSwitches, ioSwitchLCBANK2, ioSwitchLCRAMRD, ioSwitchAUXRAMRD,
   ioSwitchAUXRAMWRT, ioSwitchCXROM, ioSwitchALTZP, ioSwitchC3ROM,
   ioSwitch80STORE, ioSwitchVBLINT, ioSwitchTEXT, ioSwitchMIXED,
   ioSwitchPAGE2, ioSwitchHIRES, ioSwitchALTCHARSET, ioSwitch80COL]

/-- onSwitchReadC01x (iou.go): offset 0x10 is the keyboard latch (resets
the key strobe, returns 0x80 | data with the strobe bit masked off when a
key is down, else 0); other offsets return bit 7 of the table's switch. -/
def onSwitchReadC01x (m : Machine) (addr : Nat) : Nat × Machine :=
  if addr = 0x10 then
    let keyDown := IsKeyDown m
    let m1 := ResetKeyStrobe m
    if keyDown then (0x80 ||| (GetKeyData m1 &&& 0x7f), m1)
    else (0, m1)
  else
    (getSoftSwitchBit7 m (switchReadC01x.getD (addr - 0x10) 0), m)

/-- onSwitchWriteC01x (iou.go): a write to offset 0x10 performs the
keyboard-latch read for its side effect. -/
def onSwitchWriteC01x (m : Machine) (addr : Nat) (v : Nat) : Machine :=
  if addr = 0x10 then (onSwitchReadC01x m addr).2 else m

/-- onSwitchReadC05x (iou.go): display/annunciator/DHIRES toggles; always
returns the byte 0xa0. -/
def onSwitchReadC05x (m : Machine) (addr : Nat) : Nat × Machine :=
  let m1 :=
    if addr = 0x50 then setSoftSwitch m ioSwitchTEXT false
    else if addr = 0x51 then setSoftSwitch m ioSwitchTEXT true
    else if addr = 0x52 then setSoftSwitch m ioSwitchMIXED false
    else if addr = 0x53 then setSoftSwitch m ioSwitchMIXED true
    else if addr = 0x54 then setSoftSwitch m ioSwitchPAGE2 false
    else if addr = 0x55 then setSoftSwitch m ioSwitchPAGE2 true
    else if addr = 0x56 then setSoftSwitch m ioSwitchHIRES false
    else if addr = 0x57 then setSoftSwitch m ioSwitchHIRES true
    else if addr = 0x58 then
      (if !testSoftSwitch m ioSwitchIOUDIS then setSoftSwitch m ioSwitchANNUNCIATOR0 false else m)
    else if addr = 0x59 then
      (if !testSoftSwitch m ioSwitchIOUDIS then setSoftSwitch m ioSwitchANNUNCIATOR0 true else m)
    else if addr = 0x5a then
      (if !testSoftSwitch m ioSwitchIOUDIS then setSoftSwitch m ioSwitchANNUNCIATOR1 false else m)
    else if addr = 0x5b then
      (if !testSoftSwitch m ioSwitchIOUDIS then setSoftSwitch m ioSwitchANNUNCIATOR1 true else m)
    else if addr = 0x5c then
      (if !testSoftSwitch m ioSwitchIOUDIS then setSoftSwitch m ioSwitchANNUNCIATOR2 false else m)
    else if addr = 0x5d then
      (if !testSoftSwitch m ioSwitchIOUDIS then setSoftSwitch m ioSwitchANNUNCIATOR2 true else m)
    else if addr = 0x5e then
      (if testSoftSwitch m ioSwitchIOUDIS then setSoftSwitch m ioSwitchDHIRES true
       else setSoftSwitch m ioSwitchANNUNCIATOR3 false)
    else if addr = 0x5f then
      (if testSoftSwitch m ioSwitchIOUDIS then setSoftSwitch m ioSwitchDHIRES false
       else setSoftSwitch m ioSwitchANNUNCIATOR3 true)
    else m
  (0xa0, m1)

/-- onSwitchWriteC05x (iou.go): a write does the same as a read for the
C05x bank of switches. -/
def onSwitchWriteC05x (m : Machine) (addr : Nat) (v : Nat) : Machine :=
  (onSwitchReadC05x m addr).2

/-- onSwitchReadC07x (iou.go): returns bit 7 of IOUDIS at 0x7e and of
DHIRES at 0x7f, and clears VBLINT.  Note: the switchBank dispatch table in
iou.go registers no read handler for the c07x row, so this function is
never invoked by ioSwitchBankAccessor.LoadByte. -/
def onSwitchReadC07x (m : Machine) (addr : Nat) : Nat × Machine :=
  let ret :=
    if addr = 0x7e then getSoftSwitchBit7 m ioSwitchIOUDIS
    else if addr = 0x7f then getSoftSwitchBit7 m ioSwitchDHIRES
    else 0
  (ret, setSoftSwitch m ioSwitchVBLINT false)

/-- onSwitchWriteC07x (iou.go): 0x7e turns IOUDIS off, 0x7f turns it on. -/
def onSwitchWriteC07x (m : Machine) (addr : Nat) (v : Nat) : Machine :=
  if addr = 0x7e then setSoftSwitch m ioSwitchIOUDIS false
  else if addr = 0x7f then setSoftSwitch m ioSwitchIOUDIS true
  else m

/-- Modelled from the spec: bitTest16 is referenced by onSwitchReadC08x but
its definition is not among the provided source files; per the spec's
boolean identities for the language-card decode, it tests whether any of
the mask's bits are set in the value. -/
def bitTest16 (v mask : Nat) : Bool := v &&& mask != 0

/-- onSwitchReadC08x (iou.go): language-card decode of the low offset bits
into LCRAMRD, LCRAMWRT and LCBANK2; returns the byte 0xa0. -/
def onSwitchReadC08x (m : Machine) (addr : Nat) : Nat × Machine :=
  let m1 := setSoftSwitch m ioSwitchLCRAMRD (!bitTest16 (addr ^^^ (addr >>> 1)) (1 <<< 0))
  let m2 := setSoftSwitch m1 ioSwitchLCRAMWRT (bitTest16 addr (1 <<< 0))
  let m3 := setSoftSwitch m2 ioSwitchLCBANK2 (!bitTest16 addr (1 <<< 3))
  (0xa0, m3)

/-- Read half of the switchBank dispatch table (iou.go: var switchBank),
indexed by offset >> 4.  Rows 2, 3, 4 and 6 are empty, and the c07x row
registers only a write handler (its read function pointer is nil). -/
def switchBankRead : Nat → Option (Machine → Nat → Nat × Machine)
  | 0 => some onSwitchReadC00x
  | 1 => some onSwitchReadC01x
  | 5 => some onSwitchReadC05x
  | 8 => some onSwitchReadC08x
  | _ => none

/-- Write half of the switchBank dispatch table (iou.go: var switchBank).
The c08x row registers only a read handler. -/
def switchBankWrite : Nat → Option (Machine → Nat → Nat → Machine)
  | 0 => some onSwitchWriteC00x
  | 1 => some onSwitchWriteC01x
  | 5 => some onSwitchWriteC05x
  | 7 => some onSwitchWriteC07x
  | _ => none

/-- ioSwitchBankAccessor.LoadByte (iou.go): dispatch a read of the
IOSwitches bank through the switchBank table, then apply pending switch
updates. -/
def ioSwitchLoadByte (m : Machine) (addr : Nat) : Nat × Machine :=
  let index := addr >>> 4
  if index > 8 then (0, m)
  else
    match switchBankRead index with
    | none => (0, m)
    | some fn =>
      let r := fn m addr
      (r.1, applySwitchUpdates r.2)

/-- ioSwitchBankAccessor.StoreByte (iou.go). -/
def ioSwitchStoreByte (m : Machine) (addr : Nat) (v : Nat) : Machine :=
  let index := addr >>> 4
  if index > 8 then m
  else
    match switchBankWrite index with
    | none => m
    | some fn => applySwitchUpdates (fn m addr v)

/-- Dispatch of bank.accessor.LoadByte: the bankTypeMain IOSwitches bank
has the iou accessor installed by iou.Init; CXROM/DEFROM use the ROM
accessor and the RAM banks the RAM accessor, both of which read their
memory slice; banks with no slice and no accessor serve no data. -/
def bankLoad (m : Machine) (typ : bankType) (id : bankID) (paddr : Nat) : Nat × Machine :=
  match typ, id with
  | bankTypeMain, bankIOSwitches => ioSwitchLoadByte m paddr
  | _, _ =>
    match bankMem typ id with
    | some (r, base) => (memRead m r (base + paddr), m)
    | none => (0, m)

/-- Dispatch of bank.accessor.StoreByte: the ROM accessor ignores stores;
RAM accessors write the slice; the bankTypeMain IOSwitches bank goes to
the iou accessor. -/
def bankStore (m : Machine) (typ : bankType) (id : bankID) (paddr v : Nat) : Machine :=
  match typ, id with
  | bankTypeMain, bankIOSwitches => ioSwitchStoreByte m paddr v
  | _, _ =>
    if id = bankSystemCXROM ∨ id = bankSystemDEFROM then m
    else
      match bankMem typ id with
      | some (r, base) => memWrite m r (base + paddr) v
      | none => m

/-- LoadByte (mmu.go): look up the page's read bank (0 when null) and
delegate to its accessor at offset addr − baseAddr (uint16 arithmetic). -/
def LoadByte (m : Machine) (addr : Nat) : Nat × Machine :=
  let a := addr % 0x10000
  match m.pageRead (pageIndex a) with
  | none => (0, m)
  | some (typ, id) => bankLoad m typ id ((a + 0x10000 - bankBaseAddr typ id) % 0x10000)

/-- StoreByte (mmu.go): look up the page's write bank (silently dropped
when null) and delegate to its accessor. -/
def StoreByte (m : Machine) (addr v : Nat) : Machine :=
  let a := addr % 0x10000
  match m.pageWrite (pageIndex a) with
  | none => m
  | some (typ, id) => bankStore m typ id ((a + 0x10000 - bankBaseAddr typ id) % 0x10000) (v % 256)

/-- LoadAddress (mmu.go): read two bytes through the read bank of the
first address and assemble little-endian; when the bank offset ends in
0xff the high byte is read from offset − 0xff of the same bank. -/
def LoadAddress (m : Machine) (addr : Nat) : Nat × Machine :=
  let a := addr % 0x10000
  match m.pageRead (pageIndex a) with
  | none => (0, m)
  | some (typ, id) =>
    let paddr := (a + 0x10000 - bankBaseAddr typ id) % 0x10000
    let lo := bankLoad m typ id paddr
    let hi :=
      if paddr &&& 0xff = 0xff then bankLoad lo.2 typ id (paddr - 0xff)
      else bankLoad lo.2 typ id (paddr + 1)
    (lo.1 ||| (hi.1 <<< 8), hi.2)

/-- Freshly constructed machine (newApple2): zeroed RAM, aux RAM and ROM,
empty page table, all switches off, then the six ActivateBank calls of
mmu.Init; iou.Init installs the IOSwitches accessor (implicit in bankLoad)
and the keyboard starts with no key down. -/
def initMachine : Machine :=
  let m0 : Machine :=
    { mainRAM := fun _ => 0
      auxRAM := fun _ => 0
      systemROM := fun _ => 0
      pageRead := fun _ => none
      pageWrite := fun _ => none
      switches := 0
      updates := 0
      keydata := 0
      keydown := false }
  let m1 := ActivateBank m0 bankZeroStackRAM bankTypeMain (read ||| write)
  let m2 := ActivateBank m1 bankMainRAM bankTypeMain (read ||| write)
  let m3 := ActivateBank m2 bankDisplayPage1 bankTypeMain (read ||| write)
  let m4 := ActivateBank m3 bankSystemCXROM bankTypeMain read
  let m5 := ActivateBank m4 bankSystemDEFROM bankTypeMain read
  ActivateBank m5 bankIOSwitches bankTypeMain (read ||| write)

/-- Reachable machine states: the freshly constructed machine, closed
under the CPU-facing byte operations LoadByte and StoreByte. -/
inductive Reachable : Machine → Prop where
  | init : Reachable initMachine
  | load (m : Machine) (a : Nat) : Reachable m → Reachable (LoadByte m a).2
  | store (m : Machine) (a v : Nat) : Reachable m → Reachable (StoreByte m a v)


/-- Scenario runner for the language-card truth table (spec section 8): for
each address in the list, LoadByte it and report the returned value
together with the access state of (LangCardEFRAM main, LangCardDX1RAM
main, LangCardDX2RAM main, SystemDEFROM main) after the load. -/
def lcRun : List Nat → Machine → List (Nat × Nat × Nat × Nat × Nat)
  | [], _ => []
  | a :: rest, m =>
    ((LoadByte m a).1,
     GetBankAccess (LoadByte m a).2 bankLangCardEFRAM bankTypeMain,
     GetBankAccess (LoadByte m a).2 bankLangCardDX1RAM bankTypeMain,
     GetBankAccess (LoadByte m a).2 bankLangCardDX2RAM bankTypeMain,
     GetBankAccess (LoadByte m a).2 bankSystemDEFROM bankTypeMain) :: lcRun rest (LoadByte m a).2

/-- Scenario runner for the C00x/C01x round trip (spec section 8): for each
(write address, read address) pair, StoreByte 0 to the write address, then
LoadByte the read address and report its bit 7 (value &&& 0x80). -/
def c00xRun : List (Nat × Nat) → Machine → List Nat
  | [], _ => []
  | (w, r) :: rest, m =>
    ((LoadByte (StoreByte m w 0) r).1 &&& 0x80) :: c00xRun rest (LoadByte (StoreByte m w 0) r).2

/-- Canonical page-table plane pg0. -/
def pg0 : Fin 256 → Option (bankType × bankID) := fun p =>
  if p.val < 2 then some (bankTypeMain, bankZeroStackRAM)
  else if p.val < 4 then some (bankTypeMain, bankMainRAM)
  else if p.val < 8 then some (bankTypeMain, bankDisplayPage1)
  else if p.val < 192 then some (bankTypeMain, bankMainRAM)
  else if p.val < 193 then some (bankTypeMain, bankIOSwitches)
  else if p.val < 208 then some (bankTypeMain, bankSystemCXROM)
  else some (bankTypeMain, bankSystemDEFROM)

/-- Canonical page-table plane pg1. -/
def pg1 : Fin 256 → Option (bankType × bankID) := fun p =>
  if p.val < 2 then some (bankTypeMain, bankZeroStackRAM)
  else if p.val < 4 then some (bankTypeMain, bankMainRAM)
  else if p.val < 8 then some (bankTypeMain, bankDisplayPage1)
  else if p.val < 192 then some (bankTypeMain, bankMainRAM)
  else if p.val < 193 then some (bankTypeMain, bankIOSwitches)
  else none

/-- Canonical page-table plane pg2. -/
def pg2 : Fin 256 → Option (bankType × bankID) := fun p =>
  if p.val < 2 then some (bankTypeMain, bankZeroStackRAM)
  else if p.val < 4 then some (bankTypeMain, bankMainRAM)
  else if p.val < 8 then some (bankTypeMain, bankDisplayPage1)
  else if p.val < 192 then some (bankTypeMain, bankMainRAM)
  else if p.val < 193 then some (bankTypeMain, bankIOSwitches)
  else if p.val < 208 then some (bankTypeMain, bankSystemCXROM)
  else if p.val < 224 then some (bankTypeMain, bankLangCardDX2RAM)
  else some (bankTypeMain, bankLangCardEFRAM)

/-- Canonical page-table plane pg3. -/
def pg3 : Fin 256 → Option (bankType × bankID) := fun p =>
  if p.val < 2 then some (bankTypeMain, bankZeroStackRAM)
  else if p.val < 4 then some (bankTypeMain, bankMainRAM)
  else if p.val < 8 then some (bankTypeMain, bankDisplayPage1)
  else if p.val < 192 then some (bankTypeMain, bankMainRAM)
  else if p.val < 193 then some (bankTypeMain, bankIOSwitches)
  else if p.val < 208 then none
  else some (bankTypeMain, bankSystemDEFROM)

/-- Canonical page-table plane pg4. -/
def pg4 : Fin 256 → Option (bankType × bankID) := fun p =>
  if p.val < 2 then some (bankTypeMain, bankZeroStackRAM)
  else if p.val < 4 then some (bankTypeMain, bankMainRAM)
  else if p.val < 8 then some (bankTypeMain, bankDisplayPage1)
  else if p.val < 192 then some (bankTypeMain, bankMainRAM)
  else if p.val < 193 then some (bankTypeMain, bankIOSwitches)
  else if p.val < 208 then none
  else if p.val < 224 then some (bankTypeMain, bankLangCardDX2RAM)
  else some (bankTypeMain, bankLangCardEFRAM)

/-- Canonical page-table plane pg5. -/
def pg5 : Fin 256 → Option (bankType × bankID) := fun p =>
  if p.val < 2 then some (bankTypeMain, bankZeroStackRAM)
  else if p.val < 4 then some (bankTypeMain, bankMainRAM)
  else if p.val < 8 then some (bankTypeMain, bankDisplayPage1)
  else if p.val < 192 then some (bankTypeMain, bankMainRAM)
  else if p.val < 193 then some (bankTypeMain, bankIOSwitches)
  else if p.val < 208 then some (bankTypeMain, bankSystemCXROM)
  else if p.val < 224 then some (bankTypeMain, bankLangCardDX1RAM)
  else some (bankTypeMain, bankLangCardEFRAM)

/-- Canonical page-table plane pg6. -/
def pg6 : Fin 256 → Option (bankType × bankID) := fun p =>
  if p.val < 2 then some (bankTypeMain, bankZeroStackRAM)
  else if p.val < 4 then some (bankTypeMain, bankMainRAM)
  else if p.val < 8 then some (bankTypeMain, bankDisplayPage1)
  else if p.val < 192 then some (bankTypeMain, bankMainRAM)
  else if p.val < 193 then some (bankTypeMain, bankIOSwitches)
  else if p.val < 208 then none
  else if p.val < 224 then some (bankTypeMain, bankLangCardDX1RAM)
  else some (bankTypeMain, bankLangCardEFRAM)

/-- Canonical page-table plane pg7. -/
def pg7 : Fin 256 → Option (bankType × bankID) := fun p =>
  if p.val < 2 then some (bankTypeMain, bankZeroStackRAM)
  else if p.val < 4 then some (bankTypeAux, bankMainRAM)
  else if p.val < 8 then some (bankTypeMain, bankDisplayPage1)
  else if p.val < 192 then some (bankTypeAux, bankMainRAM)
  else if p.val < 193 then some (bankTypeMain, bankIOSwitches)
  else if p.val < 208 then some (bankTypeMain, bankSystemCXROM)
  else some (bankTypeMain, bankSystemDEFROM)

/-- Canonical page-table plane pg8. -/
def pg8 : Fin 256 → Option (bankType × bankID) := fun p =>
  if p.val < 2 then some (bankTypeMain, bankZeroStackRAM)
  else if p.val < 4 then some (bankTypeAux, bankMainRAM)
  else if p.val < 8 then some (bankTypeMain, bankDisplayPage1)
  else if p.val < 192 then some (bankTypeAux, bankMainRAM)
  else if p.val < 193 then some (bankTypeMain, bankIOSwitches)
  else if p.val < 208 then none
  else some (bankTypeMain, bankSystemDEFROM)

/-- Canonical page-table plane pg9. -/
def pg9 : Fin 256 → Option (bankType × bankID) := fun p =>
  if p.val < 2 then some (bankTypeAux, bankZeroStackRAM)
  else if p.val < 4 then some (bankTypeAux, bankMainRAM)
  else if p.val < 8 then some (bankTypeMain, bankDisplayPage1)
  else if p.val < 192 then some (bankTypeAux, bankMainRAM)
  else if p.val < 193 then some (bankTypeMain, bankIOSwitches)
  else if p.val < 208 then some (bankTypeMain, bankSystemCXROM)
  else some (bankTypeMain, bankSystemDEFROM)

/-- Canonical page-table plane pg10. -/
def pg10 : Fin 256 → Option (bankType × bankID) := fun p =>
  if p.val < 2 then some (bankTypeAux, bankZeroStackRAM)
  else if p.val < 4 then some (bankTypeAux, bankMainRAM)
  else if p.val < 8 then some (bankTypeMain, bankDisplayPage1)
  else if p.val < 192 then some (bankTypeAux, bankMainRAM)
  else if p.val < 193 then some (bankTypeMain, bankIOSwitches)
  else if p.val < 208 then none
  else some (bankTypeMain, bankSystemDEFROM)

/-- Canonical machine state st0 (switches = 0x0). -/
def st0 : Machine :=
  { mainRAM := fun _ => 0, auxRAM := fun _ => 0, systemROM := fun _ => 0,
    pageRead := pg0, pageWrite := pg1,
    switches := 0x0, updates := 0, keydata := 0, keydown := false }

/-- Canonical machine state lc80 (switches = 0x5000). -/
def lc80 : Machine :=
  { mainRAM := fun _ => 0, auxRAM := fun _ => 0, systemROM := fun _ => 0,
    pageRead := pg2, pageWrite := pg3,
    switches := 0x5000, updates := 0, keydata := 0, keydown := false }

/-- Canonical machine state lc81 (switches = 0x6000). -/
def lc81 : Machine :=
  { mainRAM := fun _ => 0, auxRAM := fun _ => 0, systemROM := fun _ => 0,
    pageRead := pg0, pageWrite := pg4,
    switches := 0x6000, updates := 0, keydata := 0, keydown := false }

/-- Canonical machine state lc82 (switches = 0x4000). -/
def lc82 : Machine :=
  { mainRAM := fun _ => 0, auxRAM := fun _ => 0, systemROM := fun _ => 0,
    pageRead := pg0, pageWrite := pg3,
    switches := 0x4000, updates := 0, keydata := 0, keydown := false }

/-- Canonical machine state lc83 (switches = 0x7000). -/
def lc83 : Machine :=
  { mainRAM := fun _ => 0, auxRAM := fun _ => 0, systemROM := fun _ => 0,
    pageRead := pg2, pageWrite := pg4,
    switches := 0x7000, updates := 0, keydata := 0, keydown := false }

/-- Canonical machine state lc88 (switches = 0x1000). -/
def lc88 : Machine :=
  { mainRAM := fun _ => 0, auxRAM := fun _ => 0, systemROM := fun _ => 0,
    pageRead := pg5, pageWrite := pg3,
    switches := 0x1000, updates := 0, keydata := 0, keydown := false }

/-- Canonical machine state lc89 (switches = 0x2000). -/
def lc89 : Machine :=
  { mainRAM := fun _ => 0, auxRAM := fun _ => 0, systemROM := fun _ => 0,
    pageRead := pg0, pageWrite := pg6,
    switches := 0x2000, updates := 0, keydata := 0, keydown := false }

/-- Canonical machine state lc8a (switches = 0x0). -/
def lc8a : Machine :=
  { mainRAM := fun _ => 0, auxRAM := fun _ => 0, systemROM := fun _ => 0,
    pageRead := pg0, pageWrite := pg3,
    switches := 0x0, updates := 0, keydata := 0, keydown := false }

/-- Canonical machine state lc8b (switches = 0x3000). -/
def lc8b : Machine :=
  { mainRAM := fun _ => 0, auxRAM := fun _ => 0, systemROM := fun _ => 0,
    pageRead := pg5, pageWrite := pg6,
    switches := 0x3000, updates := 0, keydata := 0, keydown := false }

/-- Canonical machine state rt03 (switches = 0x1). -/
def rt03 : Machine :=
  { mainRAM := fun _ => 0, auxRAM := fun _ => 0, systemROM := fun _ => 0,
    pageRead := pg7, pageWrite := pg3,
    switches := 0x1, updates := 0, keydata := 0, keydown := false }

/-- Canonical machine state rt05 (switches = 0x3). -/
def rt05 : Machine :=
  { mainRAM := fun _ => 0, auxRAM := fun _ => 0, systemROM := fun _ => 0,
    pageRead := pg7, pageWrite := pg8,
    switches := 0x3, updates := 0, keydata := 0, keydown := false }

/-- Canonical machine state rt07 (switches = 0x8003). -/
def rt07 : Machine :=
  { mainRAM := fun _ => 0, auxRAM := fun _ => 0, systemROM := fun _ => 0,
    pageRead := pg7, pageWrite := pg8,
    switches := 0x8003, updates := 0, keydata := 0, keydown := false }

/-- Canonical machine state rt09 (switches = 0x8803). -/
def rt09 : Machine :=
  { mainRAM := fun _ => 0, auxRAM := fun _ => 0, systemROM := fun _ => 0,
    pageRead := pg9, pageWrite := pg10,
    switches := 0x8803, updates := 0, keydata := 0, keydown := false }

/-- Canonical machine state rt0b (switches = 0x18803). -/
def rt0b : Machine :=
  { mainRAM := fun _ => 0, auxRAM := fun _ => 0, systemROM := fun _ => 0,
    pageRead := pg9, pageWrite := pg10,
    switches := 0x18803, updates := 0, keydata := 0, keydown := false }

/-- Canonical machine state rt0d (switches = 0x18823). -/
def rt0d : Machine :=
  { mainRAM := fun _ => 0, auxRAM := fun _ => 0, systemROM := fun _ => 0,
    pageRead := pg9, pageWrite := pg10,
    switches := 0x18823, updates := 0, keydata := 0, keydown := false }

/-- Canonical machine state rt0f (switches = 0x18827). -/
def rt0f : Machine :=
  { mainRAM := fun _ => 0, auxRAM := fun _ => 0, systemROM := fun _ => 0,
    pageRead := pg9, pageWrite := pg10,
    switches := 0x18827, updates := 0, keydata := 0, keydown := false }

/-- Canonical page-table plane pgA (the read plane with pages 4..7
remapped to the aux DisplayPage1 bank). -/
def pgA : Fin 256 → Option (bankType × bankID) := fun p =>
  if p.val < 2 then some (bankTypeMain, bankZeroStackRAM)
  else if p.val < 4 then some (bankTypeMain, bankMainRAM)
  else if p.val < 8 then some (bankTypeAux, bankDisplayPage1)
  else if p.val < 192 then some (bankTypeMain, bankMainRAM)
  else if p.val < 193 then some (bankTypeMain, bankIOSwitches)
  else if p.val < 208 then some (bankTypeMain, bankSystemCXROM)
  else some (bankTypeMain, bankSystemDEFROM)

/-- Canonical page-table plane pgB (the write plane with pages 4..7
remapped to the aux DisplayPage1 bank). -/
def pgB : Fin 256 → Option (bankType × bankID) := fun p =>
  if p.val < 2 then some (bankTypeMain, bankZeroStackRAM)
  else if p.val < 4 then some (bankTypeMain, bankMainRAM)
  else if p.val < 8 then some (bankTypeAux, bankDisplayPage1)
  else if p.val < 192 then some (bankTypeMain, bankMainRAM)
  else if p.val < 193 then some (bankTypeMain, bankIOSwitches)
  else none

/-- Canonical machine state stB (80STORE on, pages unchanged). -/
def stB : Machine :=
  { mainRAM := fun _ => 0, auxRAM := fun _ => 0, systemROM := fun _ => 0,
    pageRead := pg0, pageWrite := pg1,
    switches := 0x40, updates := 0, keydata := 0, keydown := false }

/-- Canonical machine state c4mC (80STORE and PAGE2 on; display page 1
overlaid onto aux RAM in both planes). -/
def c4mC : Machine :=
  { mainRAM := fun _ => 0, auxRAM := fun _ => 0, systemROM := fun _ => 0,
    pageRead := pgA, pageWrite := pgB,
    switches := 0xc0, updates := 0, keydata := 0, keydown := false }

/-- The ALTZP scenario of the spec: write 0x5a to $0000, enable ALTZP via
$C009, load $0000, disable ALTZP via $C008, load $0000 again; the pair of
loaded values is returned. -/
def altzpScenario : Nat × Nat :=
  let m1 := StoreByte initMachine 0x0000 0x5a
  let m2 := StoreByte m1 0xc009 0
  let r1 := LoadByte m2 0x0000
  let m4 := StoreByte r1.2 0xc008 0
  let r2 := LoadByte m4 0x0000
  (r1.1, r2.1)

/-- The machine after a write to $C07F (turns IOUDIS on). -/
def c3State : Machine := StoreByte initMachine 0xc07f 0

/-- A reachable machine with 80STORE and PAGE2 both on. -/
def c4m : Machine := StoreByte (StoreByte initMachine 0xc001 0) 0xc055 0

/-- The machine after the two RAM writes of the 16-bit wrap scenario. -/
def c6m : Machine := StoreByte (StoreByte initMachine 0x20ff 0xcd) 0x2000 0xab

/-- A machine agreeing with st0 at the MainRAM bank's first page (page 2)
but differing from it at page 5, another page of the same bank. -/
def mAltC9 : Machine :=
  { st0 with pageRead := fun p => if p.val = 5 then none else st0.pageRead p }

set_option maxRecDepth 8000 in
set_option maxHeartbeats 1000000 in
lemma initMachine_eq : initMachine = st0 := by
  apply Machine.ext <;> first
    | rfl
    | (funext p; revert p; decide)

set_option maxRecDepth 8000 in
set_option maxHeartbeats 1000000 in
lemma lcStep00 : LoadByte st0 0xc080 = (0xa0, lc80) := by
  have h2 : (LoadByte st0 0xc080).2 = lc80 := by
    apply Machine.ext <;> first
      | rfl
      | (funext p; revert p; decide)
  have h1 : (LoadByte st0 0xc080).1 = 0xa0 := by decide
  calc LoadByte st0 0xc080 = ((LoadByte st0 0xc080).1, (LoadByte st0 0xc080).2) := rfl
    _ = (0xa0, lc80) := by rw [h1, h2]

set_option maxRecDepth 8000 in
set_option maxHeartbeats 1000000 in
lemma lcStep01 : LoadByte lc80 0xc081 = (0xa0, lc81) := by
  have h2 : (LoadByte lc80 0xc081).2 = lc81 := by
    apply Machine.ext <;> first
      | rfl
      | (funext p; revert p; decide)
  have h1 : (LoadByte lc80 0xc081).1 = 0xa0 := by decide
  calc LoadByte lc80 0xc081 = ((LoadByte lc80 0xc081).1, (LoadByte lc80 0xc081).2) := rfl
    _ = (0xa0, lc81) := by rw [h1, h2]

set_option maxRecDepth 8000 in
set_option maxHeartbeats 1000000 in
lemma lcStep02 : LoadByte lc81 0xc082 = (0xa0, lc82) := by
  have h2 : (LoadByte lc81 0xc082).2 = lc82 := by
    apply Machine.ext <;> first
      | rfl
      | (funext p; revert p; decide)
  have h1 : (LoadByte lc81 0xc082).1 = 0xa0 := by decide
  calc LoadByte lc81 0xc082 = ((LoadByte lc81 0xc082).1, (LoadByte lc81 0xc082).2) := rfl
    _ = (0xa0, lc82) := by rw [h1, h2]

set_option maxRecDepth 8000 in
set_option maxHeartbeats 1000000 in
lemma lcStep03 : LoadByte lc82 0xc083 = (0xa0, lc83) := by
  have h2 : (LoadByte lc82 0xc083).2 = lc83 := by
    apply Machine.ext <;> first
      | rfl
      | (funext p; revert p; decide)
  have h1 : (LoadByte lc82 0xc083).1 = 0xa0 := by decide
  calc LoadByte lc82 0xc083 = ((LoadByte lc82 0xc083).1, (LoadByte lc82 0xc083).2) := rfl
    _ = (0xa0, lc83) := by rw [h1, h2]

set_option maxRecDepth 8000 in
set_option maxHeartbeats 1000000 in
lemma lcStep04 : LoadByte lc83 0xc084 = (0xa0, lc80) := by
  have h2 : (LoadByte lc83 0xc084).2 = lc80 := by
    apply Machine.ext <;> first
      | rfl
      | (funext p; revert p; decide)
  have h1 : (LoadByte lc83 0xc084).1 = 0xa0 := by decide
  calc LoadByte lc83 0xc084 = ((LoadByte lc83 0xc084).1, (LoadByte lc83 0xc084).2) := rfl
    _ = (0xa0, lc80) := by rw [h1, h2]

set_option maxRecDepth 8000 in
set_option maxHeartbeats 1000000 in
lemma lcStep05 : LoadByte lc80 0xc085 = (0xa0, lc81) := by
  have h2 : (LoadByte lc80 0xc085).2 = lc81 := by
    apply Machine.ext <;> first
      | rfl
      | (funext p; revert p; decide)
  have h1 : (LoadByte lc80 0xc085).1 = 0xa0 := by decide
  calc LoadByte lc80 0xc085 = ((LoadByte lc80 0xc085).1, (LoadByte lc80 0xc085).2) := rfl
    _ = (0xa0, lc81) := by rw [h1, h2]

set_option maxRecDepth 8000 in
set_option maxHeartbeats 1000000 in
lemma lcStep06 : LoadByte lc81 0xc086 = (0xa0, lc82) := by
  have h2 : (LoadByte lc81 0xc086).2 = lc82 := by
    apply Machine.ext <;> first
      | rfl
      | (funext p; revert p; decide)
  have h1 : (LoadByte lc81 0xc086).1 = 0xa0 := by decide
  calc LoadByte lc81 0xc086 = ((LoadByte lc81 0xc086).1, (LoadByte lc81 0xc086).2) := rfl
    _ = (0xa0, lc82) := by rw [h1, h2]

set_option maxRecDepth 8000 in
set_option maxHeartbeats 1000000 in
lemma lcStep07 : LoadByte lc82 0xc087 = (0xa0, lc83) := by
  have h2 : (LoadByte lc82 0xc087).2 = lc83 := by
    apply Machine.ext <;> first
      | rfl
      | (funext p; revert p; decide)
  have h1 : (LoadByte lc82 0xc087).1 = 0xa0 := by decide
  calc LoadByte lc82 0xc087 = ((LoadByte lc82 0xc087).1, (LoadByte lc82 0xc087).2) := rfl
    _ = (0xa0, lc83) := by rw [h1, h2]

set_option maxRecDepth 8000 in
set_option maxHeartbeats 1000000 in
lemma lcStep08 : LoadByte lc83 0xc088 = (0xa0, lc88) := by
  have h2 : (LoadByte lc83 0xc088).2 = lc88 := by
    apply Machine.ext <;> first
      | rfl
      | (funext p; revert p; decide)
  have h1 : (LoadByte lc83 0xc088).1 = 0xa0 := by decide
  calc LoadByte lc83 0xc088 = ((LoadByte lc83 0xc088).1, (LoadByte lc83 0xc088).2) := rfl
    _ = (0xa0, lc88) := by rw [h1, h2]

set_option maxRecDepth 8000 in
set_option maxHeartbeats 1000000 in
lemma lcStep09 : LoadByte lc88 0xc089 = (0xa0, lc89) := by
  have h2 : (LoadByte lc88 0xc089).2 = lc89 := by
    apply Machine.ext <;> first
      | rfl
      | (funext p; revert p; decide)
  have h1 : (LoadByte lc88 0xc089).1 = 0xa0 := by decide
  calc LoadByte lc88 0xc089 = ((LoadByte lc88 0xc089).1, (LoadByte lc88 0xc089).2) := rfl
    _ = (0xa0, lc89) := by rw [h1, h2]

set_option maxRecDepth 8000 in
set_option maxHeartbeats 1000000 in
lemma lcStep10 : LoadByte lc89 0xc08a = (0xa0, lc8a) := by
  have h2 : (LoadByte lc89 0xc08a).2 = lc8a := by
    apply Machine.ext <;> first
      | rfl
      | (funext p; revert p; decide)
  have h1 : (LoadByte lc89 0xc08a).1 = 0xa0 := by decide
  calc LoadByte lc89 0xc08a = ((LoadByte lc89 0xc08a).1, (LoadByte lc89 0xc08a).2) := rfl
    _ = (0xa0, lc8a) := by rw [h1, h2]

set_option maxRecDepth 8000 in
set_option maxHeartbeats 1000000 in
lemma lcStep11 : LoadByte lc8a 0xc08b = (0xa0, lc8b) := by
  have h2 : (LoadByte lc8a 0xc08b).2 = lc8b := by
    apply Machine.ext <;> first
      | rfl
      | (funext p; revert p; decide)
  have h1 : (LoadByte lc8a 0xc08b).1 = 0xa0 := by decide
  calc LoadByte lc8a 0xc08b = ((LoadByte lc8a 0xc08b).1, (LoadByte lc8a 0xc08b).2) := rfl
    _ = (0xa0, lc8b) := by rw [h1, h2]

set_option maxRecDepth 8000 in
set_option maxHeartbeats 1000000 in
lemma lcStep12 : LoadByte lc8b 0xc08c = (0xa0, lc88) := by
  have h2 : (LoadByte lc8b 0xc08c).2 = lc88 := by
    apply Machine.ext <;> first
      | rfl
      | (funext p; revert p; decide)
  have h1 : (LoadByte lc8b 0xc08c).1 = 0xa0 := by decide
  calc LoadByte lc8b 0xc08c = ((LoadByte lc8b 0xc08c).1, (LoadByte lc8b 0xc08c).2) := rfl
    _ = (0xa0, lc88) := by rw [h1, h2]

set_option maxRecDepth 8000 in
set_option maxHeartbeats 1000000 in
lemma lcStep13 : LoadByte lc88 0xc08d = (0xa0, lc89) := by
  have h2 : (LoadByte lc88 0xc08d).2 = lc89 := by
    apply Machine.ext <;> first
      | rfl
      | (funext p; revert p; decide)
  have h1 : (LoadByte lc88 0xc08d).1 = 0xa0 := by decide
  calc LoadByte lc88 0xc08d = ((LoadByte lc88 0xc08d).1, (LoadByte lc88 0xc08d).2) := rfl
    _ = (0xa0, lc89) := by rw [h1, h2]

set_option maxRecDepth 8000 in
set_option maxHeartbeats 1000000 in
lemma lcStep14 : LoadByte lc89 0xc08e = (0xa0, lc8a) := by
  have h2 : (LoadByte lc89 0xc08e).2 = lc8a := by
    apply Machine.ext <;> first
      | rfl
      | (funext p; revert p; decide)
  have h1 : (LoadByte lc89 0xc08e).1 = 0xa0 := by decide
  calc LoadByte lc89 0xc08e = ((LoadByte lc89 0xc08e).1, (LoadByte lc89 0xc08e).2) := rfl
    _ = (0xa0, lc8a) := by rw [h1, h2]

set_option maxRecDepth 8000 in
set_option maxHeartbeats 1000000 in
lemma lcStep15 : LoadByte lc8a 0xc08f = (0xa0, lc8b) := by
  have h2 : (LoadByte lc8a 0xc08f).2 = lc8b := by
    apply Machine.ext <;> first
      | rfl
      | (funext p; revert p; decide)
  have h1 : (LoadByte lc8a 0xc08f).1 = 0xa0 := by decide
  calc LoadByte lc8a 0xc08f = ((LoadByte lc8a 0xc08f).1, (LoadByte lc8a 0xc08f).2) := rfl
    _ = (0xa0, lc8b) := by rw [h1, h2]

set_option maxRecDepth 8000 in
lemma rtStore00 : StoreByte st0 0xc002 0 = st0 := rfl

set_option maxRecDepth 8000 in
lemma rtLoad00 : LoadByte st0 0xc013 = (0x0, st0) := rfl

set_option maxRecDepth 8000 in
set_option maxHeartbeats 1000000 in
lemma rtStore01 : StoreByte st0 0xc003 0 = rt03 := by
  apply Machine.ext <;> first
    | rfl
    | (funext p; revert p; decide)

set_option maxRecDepth 8000 in
lemma rtLoad01 : LoadByte rt03 0xc013 = (0x80, rt03) := rfl

set_option maxRecDepth 8000 in
lemma rtStore02 : StoreByte rt03 0xc004 0 = rt03 := rfl

set_option maxRecDepth 8000 in
lemma rtLoad02 : LoadByte rt03 0xc014 = (0x0, rt03) := rfl

set_option maxRecDepth 8000 in
set_option maxHeartbeats 1000000 in
lemma rtStore03 : StoreByte rt03 0xc005 0 = rt05 := by
  apply Machine.ext <;> first
    | rfl
    | (funext p; revert p; decide)

set_option maxRecDepth 8000 in
lemma rtLoad03 : LoadByte rt05 0xc014 = (0x80, rt05) := rfl

set_option maxRecDepth 8000 in
lemma rtStore04 : StoreByte rt05 0xc006 0 = rt05 := rfl

set_option maxRecDepth 8000 in
lemma rtLoad04 : LoadByte rt05 0xc015 = (0x0, rt05) := rfl

set_option maxRecDepth 8000 in
set_option maxHeartbeats 1000000 in
lemma rtStore05 : StoreByte rt05 0xc007 0 = rt07 := by
  apply Machine.ext <;> first
    | rfl
    | (funext p; revert p; decide)

set_option maxRecDepth 8000 in
lemma rtLoad05 : LoadByte rt07 0xc015 = (0x80, rt07) := rfl

set_option maxRecDepth 8000 in
lemma rtStore06 : StoreByte rt07 0xc008 0 = rt07 := rfl

set_option maxRecDepth 8000 in
lemma rtLoad06 : LoadByte rt07 0xc016 = (0x0, rt07) := rfl

set_option maxRecDepth 8000 in
set_option maxHeartbeats 1000000 in
lemma rtStore07 : StoreByte rt07 0xc009 0 = rt09 := by
  apply Machine.ext <;> first
    | rfl
    | (funext p; revert p; decide)

set_option maxRecDepth 8000 in
lemma rtLoad07 : LoadByte rt09 0xc016 = (0x80, rt09) := rfl

set_option maxRecDepth 8000 in
lemma rtStore08 : StoreByte rt09 0xc00a 0 = rt09 := rfl

set_option maxRecDepth 8000 in
lemma rtLoad08 : LoadByte rt09 0xc017 = (0x0, rt09) := rfl

set_option maxRecDepth 8000 in
set_option maxHeartbeats 1000000 in
lemma rtStore09 : StoreByte rt09 0xc00b 0 = rt0b := by
  apply Machine.ext <;> first
    | rfl
    | (funext p; revert p; decide)

set_option maxRecDepth 8000 in
lemma rtLoad09 : LoadByte rt0b 0xc017 = (0x80, rt0b) := rfl

set_option maxRecDepth 8000 in
lemma rtStore10 : StoreByte rt0b 0xc00c 0 = rt0b := rfl

set_option maxRecDepth 8000 in
lemma rtLoad10 : LoadByte rt0b 0xc01f = (0x0, rt0b) := rfl

set_option maxRecDepth 8000 in
set_option maxHeartbeats 1000000 in
lemma rtStore11 : StoreByte rt0b 0xc00d 0 = rt0d := by
  apply Machine.ext <;> first
    | rfl
    | (funext p; revert p; decide)

set_option maxRecDepth 8000 in
lemma rtLoad11 : LoadByte rt0d 0xc01f = (0x80, rt0d) := rfl

set_option maxRecDepth 8000 in
lemma rtStore12 : StoreByte rt0d 0xc00e 0 = rt0d := rfl

set_option maxRecDepth 8000 in
lemma rtLoad12 : LoadByte rt0d 0xc01e = (0x0, rt0d) := rfl

set_option maxRecDepth 8000 in
set_option maxHeartbeats 1000000 in
lemma rtStore13 : StoreByte rt0d 0xc00f 0 = rt0f := by
  apply Machine.ext <;> first
    | rfl
    | (funext p; revert p; decide)

set_option maxRecDepth 8000 in
lemma rtLoad13 : LoadByte rt0f 0xc01e = (0x80, rt0f) := rfl

/-- Helper: a disjunction of bits is zero exactly when both sides are. -/
lemma or_eq_zero {a b : Nat} (h : a ||| b = 0) : a = 0 ∧ b = 0 := by
  have ht : ∀ i, a.testBit i = false ∧ b.testBit i = false := by
    intro i
    have hc := congrArg (fun x => Nat.testBit x i) h
    simp only [Nat.testBit_or, Nat.zero_testBit, Bool.or_eq_false_iff] at hc
    exact hc
  exact ⟨Nat.eq_of_testBit_eq fun i => by simp [(ht i).1],
         Nat.eq_of_testBit_eq fun i => by simp [(ht i).2]⟩

/-- Helper: OR-ing a single bit does not affect a different bit. -/
lemma and_pow_or (a sw j : Nat) (h : j ≠ sw) :
    (a ||| (1 <<< sw)) &&& (1 <<< j) = a &&& (1 <<< j) := by
  apply Nat.eq_of_testBit_eq
  intro i
  simp only [Nat.testBit_and, Nat.testBit_or, Nat.shiftLeft_eq, Nat.one_mul,
    Nat.testBit_two_pow]
  by_cases hji : j = i
  · subst hji
    have hsw : (decide (sw = j)) = false := decide_eq_false fun hs => h hs.symm
    simp [hsw]
  · have hj2 : (decide (j = i)) = false := decide_eq_false hji
    simp [hj2]

/-- Helper: clearing a single bit (via AND with the complemented 32-bit
mask) does not affect a different bit below 32. -/
lemma and_pow_andmask (a sw j : Nat) (hj : j < 32) (h : j ≠ sw) :
    (a &&& (0xffffffff ^^^ (1 <<< sw))) &&& (1 <<< j) = a &&& (1 <<< j) := by
  rw [Nat.and_assoc]
  have hmask : (0xffffffff ^^^ (1 <<< sw)) &&& (1 <<< j) = 1 <<< j := by
    apply Nat.eq_of_testBit_eq
    intro i
    have hff : (0xffffffff : Nat) = 2 ^ 32 - 1 := by norm_num
    simp only [Nat.testBit_and, Nat.testBit_xor, hff, Nat.testBit_two_pow_sub_one,
      Nat.shiftLeft_eq, Nat.one_mul, Nat.testBit_two_pow]
    by_cases hji : j = i
    · subst hji
      have hsw : (decide (sw = j)) = false := decide_eq_false fun hs => h hs.symm
      have hj2 : (decide (j < 32)) = true := decide_eq_true hj
      simp [hsw, hj2]
    · have hj2 : (decide (j = i)) = false := decide_eq_false hji
      simp [hj2]
  rw [hmask]

/-- Handler footprint: an iou switch handler leaves the page table alone,
keeps the switch word below 2^32, and can only leave the systemRAM
pending-update bit clear if it left 80STORE and PAGE2 unchanged. -/
def HandlerOK (m mh : Machine) : Prop :=
  mh.pageRead = m.pageRead ∧ mh.pageWrite = m.pageWrite ∧
  mh.mainRAM = m.mainRAM ∧ mh.auxRAM = m.auxRAM ∧ mh.systemROM = m.systemROM ∧
  (m.switches < 2 ^ 32 → mh.switches < 2 ^ 32) ∧
  (mh.updates &&& updateSystemRAM = 0 →
     m.updates &&& updateSystemRAM = 0 ∧
     testSoftSwitch mh ioSwitch80STORE = testSoftSwitch m ioSwitch80STORE ∧
     testSoftSwitch mh ioSwitchPAGE2 = testSoftSwitch m ioSwitchPAGE2)

lemma handlerOK_refl (m : Machine) : HandlerOK m m := by
  exact ⟨rfl, rfl, rfl, rfl, rfl, fun h => h, fun h => ⟨h, rfl, rfl⟩⟩

lemma handlerOK_trans {m1 m2 m3 : Machine} (h12 : HandlerOK m1 m2)
    (h23 : HandlerOK m2 m3) : HandlerOK m1 m3 := by
  obtain ⟨a1, b1, c1, d1, e1, f1, g1⟩ := h12
  obtain ⟨a2, b2, c2, d2, e2, f2, g2⟩ := h23
  refine ⟨a2.trans a1, b2.trans b1, c2.trans c1, d2.trans d1, e2.trans e1,
    fun h => f2 (f1 h), fun h => ?_⟩
  obtain ⟨h2, t2, p2⟩ := g2 h
  obtain ⟨h1, t1, p1⟩ := g1 h2
  exact ⟨h1, t2.trans t1, p2.trans p1⟩

/-- Any switch whose update mask lacks the systemRAM bit is not 80STORE or
PAGE2. -/
lemma switchUpdates_not_sys {sw : Nat}
    (h : switchUpdates.getD sw 0 &&& updateSystemRAM = 0) : sw ≠ 6 ∧ sw ≠ 7 := by
  constructor <;> rintro rfl <;> simp [switchUpdates, updateSystemRAM] at h

lemma setSoftSwitch_handlerOK (m : Machine) (sw : Nat) (v : Bool)
    (hsw : sw < 32) : HandlerOK m (setSoftSwitch m sw v) := by
  by_cases hch : m.switches ≠ (if v = true then m.switches ||| (1 <<< sw)
      else m.switches &&& (0xffffffff ^^^ (1 <<< sw)))
  · simp only [setSoftSwitch, if_pos hch]
    refine ⟨rfl, rfl, rfl, rfl, rfl, ?_, ?_⟩
    · intro hb
      cases v with
      | true =>
        simp only [if_pos rfl, if_true]
        refine Nat.or_lt_two_pow hb ?_
        rw [Nat.shiftLeft_eq, Nat.one_mul]
        exact Nat.pow_lt_pow_right (by omega) hsw
      | false =>
        simp only [Bool.false_eq_true, if_false]
        exact Nat.lt_of_le_of_lt Nat.and_le_left hb
    · intro hu
      simp only at hu
      have h0 : (m.updates ||| switchUpdates.getD sw 0) &&& updateSystemRAM =
          (m.updates &&& updateSystemRAM) |||
          (switchUpdates.getD sw 0 &&& updateSystemRAM) :=
        Nat.and_distrib_right _ _ _
      rw [h0] at hu
      obtain ⟨hu1, hu2⟩ := or_eq_zero hu
      obtain ⟨h6, h7⟩ := switchUpdates_not_sys hu2
      refine ⟨hu1, ?_, ?_⟩ <;>
        simp only [testSoftSwitch, ioSwitch80STORE, ioSwitchPAGE2] <;>
        cases v <;>
        simp only [if_pos rfl, if_true, Bool.false_eq_true, if_false] <;>
        first
          | rw [and_pow_or _ _ _ (by omega)]
          | rw [and_pow_andmask _ _ _ (by omega) (by omega)]
  · simp only [setSoftSwitch, if_neg hch]
    have hs : (if v = true then m.switches ||| (1 <<< sw)
        else m.switches &&& (0xffffffff ^^^ (1 <<< sw))) = m.switches :=
      (not_not.mp hch).symm
    refine ⟨rfl, rfl, rfl, rfl, rfl, fun h => ?_, fun h => ⟨h, ?_, ?_⟩⟩ <;>
      simp only [testSoftSwitch, hs]
    exact h

/-- Distinguished page indices used by the invariants. -/
def p4 : Fin 256 := ⟨4, by omega⟩
def p5 : Fin 256 := ⟨5, by omega⟩
def p6 : Fin 256 := ⟨6, by omega⟩
def p7 : Fin 256 := ⟨7, by omega⟩
def pc0 : Fin 256 := ⟨0xc0, by omega⟩

/-- Entry lies within its bank's page range. -/
def pageInRange (e : bankType × bankID) (p : Fin 256) : Bool :=
  decide (bankBaseAddr e.1 e.2 >>> 8 ≤ p.val) &&
  decide (p.val < bankBaseAddr e.1 e.2 >>> 8 + (bankSize e.1 e.2 >>> 8))

/-- Every mapped entry of a page-table plane lies within its bank's range. -/
def PlaneOK (f : Fin 256 → Option (bankType × bankID)) : Prop :=
  ∀ p : Fin 256, ((f p).all fun e => pageInRange e p) = true

/-- Pages 4..7 (the DisplayPage1 region) always carry one common entry. -/
def Uniform47 (f : Fin 256 → Option (bankType × bankID)) : Prop :=
  f p5 = f p4 ∧ f p6 = f p4 ∧
  f p7 = f p4

/-- The page-table entry of the IOSwitches bank. -/
def ioRef : Option (bankType × bankID) := some (bankTypeMain, bankIOSwitches)

/-- With 80STORE on, the write entry of page 4 is the DisplayPage1 bank of
the variant selected by PAGE2. -/
def CondInv (m : Machine) : Prop :=
  (testSoftSwitch m ioSwitch80STORE = true → testSoftSwitch m ioSwitchPAGE2 = true →
     m.pageWrite p4 = some (bankTypeAux, bankDisplayPage1)) ∧
  (testSoftSwitch m ioSwitch80STORE = true → testSoftSwitch m ioSwitchPAGE2 = false →
     m.pageWrite p4 = some (bankTypeMain, bankDisplayPage1))

/-- State invariant maintained by every reachable machine state. -/
def Inv (m : Machine) : Prop :=
  PlaneOK m.pageRead ∧ PlaneOK m.pageWrite ∧
  Uniform47 m.pageRead ∧ Uniform47 m.pageWrite ∧
  m.pageRead pc0 = ioRef ∧ m.pageWrite pc0 = ioRef ∧
  m.switches < 2 ^ 32 ∧ m.updates = 0 ∧ CondInv m

lemma activateBank_fields (m : Machine) (id : bankID) (typ : bankType) (acc : Nat) :
    (ActivateBank m id typ acc).switches = m.switches ∧
    (ActivateBank m id typ acc).updates = m.updates ∧
    (ActivateBank m id typ acc).mainRAM = m.mainRAM ∧
    (ActivateBank m id typ acc).auxRAM = m.auxRAM ∧
    (ActivateBank m id typ acc).systemROM = m.systemROM ∧
    (ActivateBank m id typ acc).keydata = m.keydata ∧
    (ActivateBank m id typ acc).keydown = m.keydown := by
  unfold ActivateBank
  split <;> exact ⟨rfl, rfl, rfl, rfl, rfl, rfl, rfl⟩

/-- Pages outside the activated bank's range are untouched. -/
lemma activateBank_out (m : Machine) (id : bankID) (typ : bankType) (acc : Nat)
    (p : Fin 256)
    (h : p.val < bankBaseAddr typ id >>> 8 ∨
         bankBaseAddr typ id >>> 8 + (bankSize typ id >>> 8) ≤ p.val) :
    (ActivateBank m id typ acc).pageRead p = m.pageRead p ∧
    (ActivateBank m id typ acc).pageWrite p = m.pageWrite p := by
  unfold ActivateBank
  split
  · exact ⟨rfl, rfl⟩
  · constructor <;>
    · dsimp only
      rw [if_neg]
      rintro ⟨-, h1, h2⟩
      omega

lemma activateBank_planeOK (m : Machine) (id : bankID) (typ : bankType) (acc : Nat)
    (hr : PlaneOK m.pageRead) (hw : PlaneOK m.pageWrite) :
    PlaneOK (ActivateBank m id typ acc).pageRead ∧
    PlaneOK (ActivateBank m id typ acc).pageWrite := by
  unfold ActivateBank
  split
  · exact ⟨hr, hw⟩
  · constructor <;> intro p <;> dsimp only <;> split
    · next hc =>
      obtain ⟨-, h1, h2⟩ := hc
      simp only [Option.all_some, pageInRange, Bool.and_eq_true, decide_eq_true_eq]
      exact ⟨h1, h2⟩
    · exact hr p
    · next hc =>
      obtain ⟨-, h1, h2⟩ := hc
      simp only [Option.all_some, pageInRange, Bool.and_eq_true, decide_eq_true_eq]
      exact ⟨h1, h2⟩
    · exact hw p

/-- Static fact: every bank's page range either misses pages 4..7 entirely
or contains all of them. -/
lemma range47 (typ : bankType) (id : bankID) :
    bankBaseAddr typ id >>> 8 + (bankSize typ id >>> 8) ≤ 4 ∨
    8 ≤ bankBaseAddr typ id >>> 8 ∨
    (bankBaseAddr typ id >>> 8 ≤ 4 ∧
     8 ≤ bankBaseAddr typ id >>> 8 + (bankSize typ id >>> 8)) := by
  cases typ <;> cases id <;> decide

/-- A range update that misses or covers all of pages 4..7 keeps them
uniform. -/
lemma update_pair_eq (f : Fin 256 → Option (bankType × bankID)) (b : Prop)
    [Decidable b] (typ : bankType) (id : bankID) (p0 pn : Nat) (x y : Fin 256)
    (hxy : f x = f y) (hx4 : 4 ≤ x.val) (hx8 : x.val < 8)
    (hy4 : 4 ≤ y.val) (hy8 : y.val < 8)
    (h47 : pn ≤ 4 ∨ 8 ≤ p0 ∨ (p0 ≤ 4 ∧ 8 ≤ pn)) :
    (if b ∧ p0 ≤ x.val ∧ x.val < pn then some (typ, id) else f x) =
    (if b ∧ p0 ≤ y.val ∧ y.val < pn then some (typ, id) else f y) := by
  rcases h47 with h | h | h
  · rw [if_neg (by rintro ⟨-, -, h2⟩; omega), if_neg (by rintro ⟨-, -, h2⟩; omega)]
    exact hxy
  · rw [if_neg (by rintro ⟨-, h1, -⟩; omega), if_neg (by rintro ⟨-, h1, -⟩; omega)]
    exact hxy
  · by_cases hb : b
    · rw [if_pos ⟨hb, by omega, by omega⟩, if_pos ⟨hb, by omega, by omega⟩]
    · rw [if_neg (fun hc => hb hc.1), if_neg (fun hc => hb hc.1)]
      exact hxy

lemma activateBank_uniform47 (m : Machine) (id : bankID) (typ : bankType) (acc : Nat)
    (hr : Uniform47 m.pageRead) (hw : Uniform47 m.pageWrite) :
    Uniform47 (ActivateBank m id typ acc).pageRead ∧
    Uniform47 (ActivateBank m id typ acc).pageWrite := by
  unfold ActivateBank
  split
  · exact ⟨hr, hw⟩
  · have h47 := range47 typ id
    constructor <;> dsimp only
    · exact ⟨update_pair_eq _ _ _ _ _ _ _ _ hr.1 (by decide) (by decide) (by decide) (by decide) h47,
             update_pair_eq _ _ _ _ _ _ _ _ hr.2.1 (by decide) (by decide) (by decide) (by decide) h47,
             update_pair_eq _ _ _ _ _ _ _ _ hr.2.2 (by decide) (by decide) (by decide) (by decide) h47⟩
    · exact ⟨update_pair_eq _ _ _ _ _ _ _ _ hw.1 (by decide) (by decide) (by decide) (by decide) h47,
             update_pair_eq _ _ _ _ _ _ _ _ hw.2.1 (by decide) (by decide) (by decide) (by decide) h47,
             update_pair_eq _ _ _ _ _ _ _ _ hw.2.2 (by decide) (by decide) (by decide) (by decide) h47⟩

/-- Activating DisplayPage1 of either variant for read+write always leaves
the write entry of page 4 pointing at that DisplayPage1 bank (either the
activation proceeds and overwrites it, or it was a no-op because the
access state -- judged at page 4 -- already matched). -/
lemma activateBank_DP1_pw4 (m : Machine) (bt : bankType) :
    (ActivateBank m bankDisplayPage1 bt (read ||| write)).pageWrite p4 =
      some (bt, bankDisplayPage1) := by
  cases bt <;>
  · unfold ActivateBank
    split
    · next hacc =>
      unfold GetBankAccess at hacc
      by_cases h1 : m.pageRead (pageIndex (bankBaseAddr bankTypeMain bankDisplayPage1)) =
          some (bankTypeMain, bankDisplayPage1) <;>
      by_cases h2 : m.pageWrite (pageIndex (bankBaseAddr bankTypeMain bankDisplayPage1)) =
          some (bankTypeMain, bankDisplayPage1) <;>
      by_cases h3 : m.pageRead (pageIndex (bankBaseAddr bankTypeAux bankDisplayPage1)) =
          some (bankTypeAux, bankDisplayPage1) <;>
      by_cases h4 : m.pageWrite (pageIndex (bankBaseAddr bankTypeAux bankDisplayPage1)) =
          some (bankTypeAux, bankDisplayPage1) <;>
      simp only [h1, h2, h3, h4, if_true, if_false, read, write] at hacc ⊢ <;>
      first
        | (exact h2) | (exact h4) | (simp at hacc)
    · dsimp only
      rw [if_pos ⟨by decide, by decide, by decide⟩]

/-- Common footprint of the page-table reconfiguration procedures: they
leave every non-page field alone, preserve the range discipline and the
4..7 uniformity of the page table, and never touch page 0xc0. -/
def ApplyOK (m mo : Machine) : Prop :=
  mo.switches = m.switches ∧ mo.updates = m.updates ∧
  mo.mainRAM = m.mainRAM ∧ mo.auxRAM = m.auxRAM ∧ mo.systemROM = m.systemROM ∧
  mo.keydata = m.keydata ∧ mo.keydown = m.keydown ∧
  (PlaneOK m.pageRead ∧ PlaneOK m.pageWrite →
     PlaneOK mo.pageRead ∧ PlaneOK mo.pageWrite) ∧
  (Uniform47 m.pageRead ∧ Uniform47 m.pageWrite →
     Uniform47 mo.pageRead ∧ Uniform47 mo.pageWrite) ∧
  mo.pageRead pc0 = m.pageRead pc0 ∧
  mo.pageWrite pc0 = m.pageWrite pc0

lemma applyOK_refl (m : Machine) : ApplyOK m m :=
  ⟨rfl, rfl, rfl, rfl, rfl, rfl, rfl, fun h => h, fun h => h, rfl, rfl⟩

lemma applyOK_trans {m1 m2 m3 : Machine} (h12 : ApplyOK m1 m2)
    (h23 : ApplyOK m2 m3) : ApplyOK m1 m3 := by
  obtain ⟨a1, b1, c1, d1, e1, f1, g1, p1, u1, r1, w1⟩ := h12
  obtain ⟨a2, b2, c2, d2, e2, f2, g2, p2, u2, r2, w2⟩ := h23
  exact ⟨a2.trans a1, b2.trans b1, c2.trans c1, d2.trans d1, e2.trans e1,
    f2.trans f1, g2.trans g1, fun h => p2 (p1 h), fun h => u2 (u1 h),
    r2.trans r1, w2.trans w1⟩

lemma activateBank_applyOK (m : Machine) (id : bankID) (typ : bankType)
    (acc : Nat) (hid : id ≠ bankIOSwitches) :
    ApplyOK m (ActivateBank m id typ acc) := by
  obtain ⟨f1, f2, f3, f4, f5, f6, f7⟩ := activateBank_fields m id typ acc
  have hout := activateBank_out m id typ acc pc0 (by
    cases typ <;> cases id <;> first | (exact absurd rfl hid) | decide)
  exact ⟨f1, f2, f3, f4, f5, f6, f7,
    fun h => activateBank_planeOK m id typ acc h.1 h.2,
    fun h => activateBank_uniform47 m id typ acc h.1 h.2,
    hout.1, hout.2⟩

lemma testSoftSwitch_activate (m : Machine) (id : bankID) (typ : bankType)
    (acc sw : Nat) :
    testSoftSwitch (ActivateBank m id typ acc) sw = testSoftSwitch m sw := by
  unfold testSoftSwitch
  rw [(activateBank_fields m id typ acc).1]

lemma selectBankType_activate (m : Machine) (id : bankID) (typ : bankType)
    (acc sw : Nat) (a b : bankType) :
    selectBankType (ActivateBank m id typ acc) sw a b = selectBankType m sw a b := by
  unfold selectBankType
  rw [testSoftSwitch_activate]

lemma selectBank_activate (m : Machine) (id : bankID) (typ : bankType)
    (acc sw : Nat) (a b : bankID) :
    selectBank (ActivateBank m id typ acc) sw a b = selectBank m sw a b := by
  unfold selectBank
  rw [testSoftSwitch_activate]

/-- The banks activated outside the DisplayPage region leave the write
entry of page 4 alone, for either variant. -/
lemma activateBank_out4 (m : Machine) (id : bankID) (typ : bankType) (acc : Nat)
    (hid : id = bankLangCardEFRAM ∨ id = bankLangCardDX1RAM ∨
           id = bankLangCardDX2RAM ∨ id = bankSystemDEFROM ∨
           id = bankZeroStackRAM ∨ id = bankHiRes1 ∨ id = bankHiRes2) :
    (ActivateBank m id typ acc).pageWrite p4 =
      m.pageWrite p4 := by
  refine (activateBank_out m id typ acc p4 ?_).2
  rcases hid with rfl | rfl | rfl | rfl | rfl | rfl | rfl <;> cases typ <;> decide

/-- ApplyOK together with preservation of the page-4 write entry: the
footprint of the ZPS and LC reconfigurations. -/
def LCOK (m mo : Machine) : Prop :=
  ApplyOK m mo ∧ mo.pageWrite p4 = m.pageWrite p4

lemma lcok_refl (m : Machine) : LCOK m m := ⟨applyOK_refl m, rfl⟩

lemma lcok_trans {m1 m2 m3 : Machine} (h12 : LCOK m1 m2) (h23 : LCOK m2 m3) :
    LCOK m1 m3 :=
  ⟨applyOK_trans h12.1 h23.1, h23.2.trans h12.2⟩

lemma lcok_act (m : Machine) (id : bankID) (typ : bankType) (acc : Nat)
    (hid : id = bankLangCardEFRAM ∨ id = bankLangCardDX1RAM ∨
           id = bankLangCardDX2RAM ∨ id = bankSystemDEFROM ∨
           id = bankZeroStackRAM ∨ id = bankHiRes1 ∨ id = bankHiRes2) :
    LCOK m (ActivateBank m id typ acc) :=
  ⟨activateBank_applyOK m id typ acc
     (by rcases hid with rfl | rfl | rfl | rfl | rfl | rfl | rfl <;> decide),
   activateBank_out4 m id typ acc hid⟩

/-- ZPS reconfiguration is an ApplyOK step leaving page 4 writes alone. -/
lemma applyZPS_ok (m : Machine) : LCOK m (applyZPSRAMSwitches m) := by
  unfold applyZPSRAMSwitches
  split <;> exact lcok_act _ _ _ _ (by decide)

/-- LC reconfiguration is an ApplyOK step leaving page 4 writes alone. -/
lemma applyLC_ok (m : Machine) : LCOK m (applyLCRAMSwitches m) := by
  have hlcb : selectBank m ioSwitchLCBANK2 bankLangCardDX2RAM bankLangCardDX1RAM =
      bankLangCardDX2RAM ∨
      selectBank m ioSwitchLCBANK2 bankLangCardDX2RAM bankLangCardDX1RAM =
      bankLangCardDX1RAM := by
    unfold selectBank
    split
    · exact Or.inl rfl
    · exact Or.inr rfl
  unfold applyLCRAMSwitches
  dsimp only
  rcases hlcb with hlcb | hlcb <;> rw [hlcb] <;> split <;> split <;>
    repeat'
      first
        | exact lcok_act _ _ _ _ (by decide)
        | refine lcok_trans ?_ (lcok_act _ _ _ _ (by decide))

lemma selectBank_ne_io (m : Machine) (sw : Nat) (a b : bankID)
    (ha : a ≠ bankIOSwitches) (hb : b ≠ bankIOSwitches) :
    selectBank m sw a b ≠ bankIOSwitches := by
  unfold selectBank
  split
  · exact ha
  · exact hb

set_option maxHeartbeats 1000000 in
/-- System-RAM reconfiguration is an ApplyOK step. -/
lemma applySys_applyOK (m : Machine) : ApplyOK m (applySystemRAMSwitches m) := by
  unfold applySystemRAMSwitches
  dsimp only
  simp only [testSoftSwitch_activate, selectBankType_activate, selectBank_activate]
  by_cases h80 : testSoftSwitch m ioSwitch80STORE = true
  · simp only [h80, eq_self_iff_true, if_true]
    by_cases hh : testSoftSwitch m ioSwitchHIRES = true
    · simp only [hh, eq_self_iff_true, if_true]
      exact applyOK_trans (applyOK_trans (applyOK_trans
        (activateBank_applyOK _ _ _ _ (by decide))
        (activateBank_applyOK _ _ _ _ (by decide)))
        (activateBank_applyOK _ _ _ _ (by decide)))
        (activateBank_applyOK _ _ _ _ (by decide))
    · rw [Bool.not_eq_true] at hh
      simp only [hh, Bool.false_eq_true, if_false]
      exact applyOK_trans (applyOK_trans
        (activateBank_applyOK _ _ _ _ (by decide))
        (activateBank_applyOK _ _ _ _ (by decide)))
        (activateBank_applyOK _ _ _ _ (by decide))
  · rw [Bool.not_eq_true] at h80
    simp only [h80, Bool.false_eq_true, if_false]
    by_cases hh : testSoftSwitch m ioSwitchHIRES = true
    · simp only [hh, eq_self_iff_true, if_true]
      exact applyOK_trans (applyOK_trans (applyOK_trans
        (activateBank_applyOK _ _ _ _ (by decide))
        (activateBank_applyOK _ _ _ _ (by decide)))
        (activateBank_applyOK _ _ _ _
          (selectBank_ne_io _ _ _ _ (by decide) (by decide))))
        (activateBank_applyOK _ _ _ _
          (selectBank_ne_io _ _ _ _ (by decide) (by decide)))
    · rw [Bool.not_eq_true] at hh
      simp only [hh, Bool.false_eq_true, if_false]
      exact applyOK_trans (applyOK_trans
        (activateBank_applyOK _ _ _ _ (by decide))
        (activateBank_applyOK _ _ _ _ (by decide)))
        (activateBank_applyOK _ _ _ _
          (selectBank_ne_io _ _ _ _ (by decide) (by decide)))

/-- With 80STORE on, system-RAM reconfiguration leaves the write entry of
page 4 pointing at the DisplayPage1 bank of the variant selected by
PAGE2. -/
lemma applySys_pw4 (m : Machine) :
    testSoftSwitch m ioSwitch80STORE = true →
    (testSoftSwitch m ioSwitchPAGE2 = true →
       (applySystemRAMSwitches m).pageWrite p4 = some (bankTypeAux, bankDisplayPage1)) ∧
    (testSoftSwitch m ioSwitchPAGE2 = false →
       (applySystemRAMSwitches m).pageWrite p4 = some (bankTypeMain, bankDisplayPage1)) := by
  intro h80
  unfold applySystemRAMSwitches
  dsimp only
  simp only [testSoftSwitch_activate, selectBankType_activate, selectBank_activate]
  simp only [h80, eq_self_iff_true, if_true]
  constructor
  · intro hP
    simp only [selectBankType, hP, eq_self_iff_true, if_true]
    split
    · exact (activateBank_out4 _ bankHiRes1 _ _ (by tauto)).trans
        (activateBank_DP1_pw4 _ _)
    · exact activateBank_DP1_pw4 _ _
  · intro hP
    simp only [selectBankType, hP, Bool.false_eq_true, if_false]
    split
    · exact (activateBank_out4 _ bankHiRes1 _ _ (by tauto)).trans
        (activateBank_DP1_pw4 _ _)
    · exact activateBank_DP1_pw4 _ _

lemma testSoftSwitch_congr {m1 m2 : Machine} (h : m1.switches = m2.switches)
    (sw : Nat) : testSoftSwitch m1 sw = testSoftSwitch m2 sw := by
  unfold testSoftSwitch
  rw [h]

/-- Applying pending switch updates restores the full state invariant,
given the page-table facts of the incoming state and the conditional
page-4 invariant when no systemRAM update is pending. -/
lemma applySwitchUpdates_inv (mh : Machine)
    (hpr : PlaneOK mh.pageRead) (hpw : PlaneOK mh.pageWrite)
    (hur : Uniform47 mh.pageRead) (huw : Uniform47 mh.pageWrite)
    (hc0r : mh.pageRead pc0 = ioRef) (hc0w : mh.pageWrite pc0 = ioRef)
    (hsb : mh.switches < 2 ^ 32)
    (hcond : mh.updates &&& updateSystemRAM = 0 → CondInv mh) :
    Inv (applySwitchUpdates mh) := by
  unfold applySwitchUpdates
  split
  · next h0 =>
    exact ⟨hpr, hpw, hur, huw, hc0r, hc0w, hsb, h0, hcond (by simp [h0])⟩
  · next h0 =>
    dsimp only
    have s1 : LCOK mh
        (if mh.updates &&& updateZPSRAM ≠ 0 then applyZPSRAMSwitches mh else mh) := by
      split
      · exact applyZPS_ok mh
      · exact lcok_refl mh
    set m1 := (if mh.updates &&& updateZPSRAM ≠ 0 then applyZPSRAMSwitches mh else mh)
      with hm1
    obtain ⟨⟨sw1, up1, _, _, _, _, _, pl1, un1, rc1, wc1⟩, pw41⟩ := s1
    rw [up1]
    by_cases hsys : mh.updates &&& updateSystemRAM ≠ 0
    · rw [if_pos hsys]
      have s2 := applySys_applyOK m1
      have s2p := applySys_pw4 m1
      set m2 := applySystemRAMSwitches m1 with hm2
      obtain ⟨sw2, up2, _, _, _, _, _, pl2, un2, rc2, wc2⟩ := s2
      rw [show m2.updates = mh.updates from up2.trans up1]
      have s3 : LCOK m2
          (if mh.updates &&& updateLCRAM ≠ 0 then applyLCRAMSwitches m2 else m2) := by
        split
        · exact applyLC_ok m2
        · exact lcok_refl m2
      set m3 := (if mh.updates &&& updateLCRAM ≠ 0 then applyLCRAMSwitches m2 else m2)
        with hm3
      obtain ⟨⟨sw3, up3, _, _, _, _, _, pl3, un3, rc3, wc3⟩, pw43⟩ := s3
      have hsw3 : m3.switches = mh.switches := sw3.trans (sw2.trans sw1)
      have hplanes := pl3 (pl2 (pl1 ⟨hpr, hpw⟩))
      have huni := un3 (un2 (un1 ⟨hur, huw⟩))
      have hsw1 : m1.switches = mh.switches := sw1
      refine ⟨hplanes.1, hplanes.2, huni.1, huni.2,
        (rc3.trans (rc2.trans rc1)).trans hc0r,
        (wc3.trans (wc2.trans wc1)).trans hc0w,
        by show m3.switches < 2 ^ 32; rw [hsw3]; exact hsb, rfl, ?_, ?_⟩
      · intro h80f hPf
        have h80m : testSoftSwitch m1 ioSwitch80STORE = true := by
          rw [testSoftSwitch_congr hsw1, ← testSoftSwitch_congr hsw3]
          exact h80f
        have hPm : testSoftSwitch m1 ioSwitchPAGE2 = true := by
          rw [testSoftSwitch_congr hsw1, ← testSoftSwitch_congr hsw3]
          exact hPf
        show m3.pageWrite p4 = some (bankTypeAux, bankDisplayPage1)
        rw [pw43]
        exact (s2p h80m).1 hPm
      · intro h80f hPf
        have h80m : testSoftSwitch m1 ioSwitch80STORE = true := by
          rw [testSoftSwitch_congr hsw1, ← testSoftSwitch_congr hsw3]
          exact h80f
        have hPm : testSoftSwitch m1 ioSwitchPAGE2 = false := by
          rw [testSoftSwitch_congr hsw1, ← testSoftSwitch_congr hsw3]
          exact hPf
        show m3.pageWrite p4 = some (bankTypeMain, bankDisplayPage1)
        rw [pw43]
        exact (s2p h80m).2 hPm
    · rw [if_neg hsys]
      rw [up1]
      rw [ne_eq, not_not] at hsys
      have s3 : LCOK m1
          (if mh.updates &&& updateLCRAM ≠ 0 then applyLCRAMSwitches m1 else m1) := by
        split
        · exact applyLC_ok m1
        · exact lcok_refl m1
      set m3 := (if mh.updates &&& updateLCRAM ≠ 0 then applyLCRAMSwitches m1 else m1)
        with hm3
      obtain ⟨⟨sw3, up3, _, _, _, _, _, pl3, un3, rc3, wc3⟩, pw43⟩ := s3
      have hsw3 : m3.switches = mh.switches := sw3.trans sw1
      have hplanes := pl3 (pl1 ⟨hpr, hpw⟩)
      have huni := un3 (un1 ⟨hur, huw⟩)
      have hcmh := hcond hsys
      refine ⟨hplanes.1, hplanes.2, huni.1, huni.2,
        (rc3.trans rc1).trans hc0r, (wc3.trans wc1).trans hc0w,
        by show m3.switches < 2 ^ 32; rw [hsw3]; exact hsb, rfl, ?_, ?_⟩
      · intro h80f hPf
        show m3.pageWrite p4 = some (bankTypeAux, bankDisplayPage1)
        rw [pw43, pw41]
        exact hcmh.1 (by rw [← testSoftSwitch_congr hsw3]; exact h80f)
          (by rw [← testSoftSwitch_congr hsw3]; exact hPf)
      · intro h80f hPf
        show m3.pageWrite p4 = some (bankTypeMain, bankDisplayPage1)
        rw [pw43, pw41]
        exact hcmh.2 (by rw [← testSoftSwitch_congr hsw3]; exact h80f)
          (by rw [← testSoftSwitch_congr hsw3]; exact hPf)

lemma switchWriteC00x_lt (i : Nat) : switchWriteC00x.getD i 0 < 32 := by
  unfold switchWriteC00x
  rcases i with _ | _ | _ | _ | _ | _ | _ | _ | i
  all_goals first
    | decide
    | (rw [List.getD_eq_default _ _ (by simp)]; decide)

lemma hOK_C00x_read (m : Machine) (addr : Nat) :
    HandlerOK m (onSwitchReadC00x m addr).2 := by
  unfold onSwitchReadC00x
  split <;> exact handlerOK_refl m

lemma hOK_C00x_write (m : Machine) (addr v : Nat) :
    HandlerOK m (onSwitchWriteC00x m addr v) := by
  unfold onSwitchWriteC00x
  dsimp only
  exact setSoftSwitch_handlerOK m _ _ (switchWriteC00x_lt _)

lemma hOK_C01x_read (m : Machine) (addr : Nat) :
    HandlerOK m (onSwitchReadC01x m addr).2 := by
  unfold onSwitchReadC01x
  split
  · dsimp only
    split <;>
      exact ⟨rfl, rfl, rfl, rfl, rfl, fun h => h, fun h => ⟨h, rfl, rfl⟩⟩
  · exact handlerOK_refl m

lemma hOK_C01x_write (m : Machine) (addr v : Nat) :
    HandlerOK m (onSwitchWriteC01x m addr v) := by
  unfold onSwitchWriteC01x
  split
  · exact hOK_C01x_read m addr
  · exact handlerOK_refl m

lemma handlerOK_ite (c : Prop) [Decidable c] (m m1 m2 : Machine)
    (h1 : HandlerOK m m1) (h2 : HandlerOK m m2) :
    HandlerOK m (if c then m1 else m2) := by
  split
  · exact h1
  · exact h2

set_option maxHeartbeats 1000000 in
lemma hOK_C05x_read (m : Machine) (addr : Nat) :
    HandlerOK m (onSwitchReadC05x m addr).2 := by
  show HandlerOK m
    (if addr = 0x50 then setSoftSwitch m ioSwitchTEXT false
    else if addr = 0x51 then setSoftSwitch m ioSwitchTEXT true
    else if addr = 0x52 then setSoftSwitch m ioSwitchMIXED false
    else if addr = 0x53 then setSoftSwitch m ioSwitchMIXED true
    else if addr = 0x54 then setSoftSwitch m ioSwitchPAGE2 false
    else if addr = 0x55 then setSoftSwitch m ioSwitchPAGE2 true
    else if addr = 0x56 then setSoftSwitch m ioSwitchHIRES false
    else if addr = 0x57 then setSoftSwitch m ioSwitchHIRES true
    else if addr = 0x58 then
      (if !testSoftSwitch m ioSwitchIOUDIS then setSoftSwitch m ioSwitchANNUNCIATOR0 false else m)
    else if addr = 0x59 then
      (if !testSoftSwitch m ioSwitchIOUDIS then setSoftSwitch m ioSwitchANNUNCIATOR0 true else m)
    else if addr = 0x5a then
      (if !testSoftSwitch m ioSwitchIOUDIS then setSoftSwitch m ioSwitchANNUNCIATOR1 false else m)
    else if addr = 0x5b then
      (if !testSoftSwitch m ioSwitchIOUDIS then setSoftSwitch m ioSwitchANNUNCIATOR1 true else m)
    else if addr = 0x5c then
      (if !testSoftSwitch m ioSwitchIOUDIS then setSoftSwitch m ioSwitchANNUNCIATOR2 false else m)
    else if addr = 0x5d then
      (if !testSoftSwitch m ioSwitchIOUDIS then setSoftSwitch m ioSwitchANNUNCIATOR2 true else m)
    else if addr = 0x5e then
      (if testSoftSwitch m ioSwitchIOUDIS then setSoftSwitch m ioSwitchDHIRES true
       else setSoftSwitch m ioSwitchANNUNCIATOR3 false)
    else if addr = 0x5f then
      (if testSoftSwitch m ioSwitchIOUDIS then setSoftSwitch m ioSwitchDHIRES false
       else setSoftSwitch m ioSwitchANNUNCIATOR3 true)
    else m)
  repeat'
    first
      | exact handlerOK_refl m
      | (apply setSoftSwitch_handlerOK m <;> decide)
      | apply handlerOK_ite

lemma hOK_C05x_write (m : Machine) (addr v : Nat) :
    HandlerOK m (onSwitchWriteC05x m addr v) := by
  unfold onSwitchWriteC05x
  exact hOK_C05x_read m addr

lemma hOK_C07x_write (m : Machine) (addr v : Nat) :
    HandlerOK m (onSwitchWriteC07x m addr v) := by
  unfold onSwitchWriteC07x
  repeat' split
  all_goals first
    | exact handlerOK_refl m
    | exact setSoftSwitch_handlerOK m _ _ (by decide)

lemma hOK_C08x_read (m : Machine) (addr : Nat) :
    HandlerOK m (onSwitchReadC08x m addr).2 := by
  unfold onSwitchReadC08x
  dsimp only
  exact handlerOK_trans (handlerOK_trans
    (setSoftSwitch_handlerOK m _ _ (by decide))
    (setSoftSwitch_handlerOK _ _ _ (by decide)))
    (setSoftSwitch_handlerOK _ _ _ (by decide))

/-- A switch-handler step followed by applySwitchUpdates preserves the
invariant. -/
lemma handler_step_inv (m mh : Machine) (hOK : HandlerOK m mh) (hInv : Inv m) :
    Inv (applySwitchUpdates mh) := by
  obtain ⟨hpr0, hpw0, hur0, huw0, hc0r, hc0w, hsb, hupd, hci⟩ := hInv
  obtain ⟨e1, e2, _, _, _, f6, f7⟩ := hOK
  refine applySwitchUpdates_inv mh ?_ ?_ ?_ ?_ ?_ ?_ ?_ ?_
  · rw [e1]; exact hpr0
  · rw [e2]; exact hpw0
  · rw [e1]; exact hur0
  · rw [e2]; exact huw0
  · rw [e1]; exact hc0r
  · rw [e2]; exact hc0w
  · exact f6 hsb
  · intro hu
    obtain ⟨hu0, t80, tP2⟩ := f7 hu
    constructor
    · intro h80 hP
      rw [t80] at h80
      rw [tP2] at hP
      rw [e2]
      exact hci.1 h80 hP
    · intro h80 hP
      rw [t80] at h80
      rw [tP2] at hP
      rw [e2]
      exact hci.2 h80 hP

/-- A read of the IOSwitches bank preserves the invariant. -/
lemma ioLoad_inv (m : Machine) (paddr : Nat) (hInv : Inv m) :
    Inv (ioSwitchLoadByte m paddr).2 := by
  unfold ioSwitchLoadByte
  dsimp only
  split
  · exact hInv
  · next hgt =>
    have hle : paddr >>> 4 ≤ 8 := by omega
    generalize hI : paddr >>> 4 = n at hle ⊢
    interval_cases n <;> dsimp only [switchBankRead] <;>
      first
        | exact hInv
        | exact handler_step_inv m _ (hOK_C00x_read m paddr) hInv
        | exact handler_step_inv m _ (hOK_C01x_read m paddr) hInv
        | exact handler_step_inv m _ (hOK_C05x_read m paddr) hInv
        | exact handler_step_inv m _ (hOK_C08x_read m paddr) hInv

/-- A write of the IOSwitches bank preserves the invariant. -/
lemma ioStore_inv (m : Machine) (paddr v : Nat) (hInv : Inv m) :
    Inv (ioSwitchStoreByte m paddr v) := by
  unfold ioSwitchStoreByte
  dsimp only
  split
  · exact hInv
  · next hgt =>
    have hle : paddr >>> 4 ≤ 8 := by omega
    generalize hI : paddr >>> 4 = n at hle ⊢
    interval_cases n <;> dsimp only [switchBankWrite] <;>
      first
        | exact hInv
        | exact handler_step_inv m _ (hOK_C00x_write m paddr v) hInv
        | exact handler_step_inv m _ (hOK_C01x_write m paddr v) hInv
        | exact handler_step_inv m _ (hOK_C05x_write m paddr v) hInv
        | exact handler_step_inv m _ (hOK_C07x_write m paddr v) hInv

lemma bankLoad_snd (m : Machine) (typ : bankType) (id : bankID) (paddr : Nat)
    (h : ¬(typ = bankTypeMain ∧ id = bankIOSwitches)) :
    (bankLoad m typ id paddr).2 = m := by
  cases typ <;> cases id <;>
    first
      | rfl
      | exact (h ⟨rfl, rfl⟩).elim

lemma bankStore_fields (m : Machine) (typ : bankType) (id : bankID) (paddr v : Nat)
    (h : ¬(typ = bankTypeMain ∧ id = bankIOSwitches)) :
    (bankStore m typ id paddr v).pageRead = m.pageRead ∧
    (bankStore m typ id paddr v).pageWrite = m.pageWrite ∧
    (bankStore m typ id paddr v).switches = m.switches ∧
    (bankStore m typ id paddr v).updates = m.updates := by
  cases typ <;> cases id <;>
    first
      | exact ⟨rfl, rfl, rfl, rfl⟩
      | exact (h ⟨rfl, rfl⟩).elim

/-- The invariant only constrains the page table, the switch word and the
pending updates. -/
lemma Inv_congr (m mo : Machine) (hr : mo.pageRead = m.pageRead)
    (hw : mo.pageWrite = m.pageWrite) (hs : mo.switches = m.switches)
    (hu : mo.updates = m.updates) (hInv : Inv m) : Inv mo := by
  obtain ⟨hpr0, hpw0, hur0, huw0, hc0r, hc0w, hsb, hupd, hci⟩ := hInv
  refine ⟨by rw [hr]; exact hpr0, by rw [hw]; exact hpw0,
    by rw [hr]; exact hur0, by rw [hw]; exact huw0,
    by rw [hr]; exact hc0r, by rw [hw]; exact hc0w,
    by rw [hs]; exact hsb, by rw [hu]; exact hupd, ?_, ?_⟩
  · intro h80 hP
    rw [testSoftSwitch_congr hs] at h80 hP
    rw [hw]
    exact hci.1 h80 hP
  · intro h80 hP
    rw [testSoftSwitch_congr hs] at h80 hP
    rw [hw]
    exact hci.2 h80 hP

lemma LoadByte_inv (m : Machine) (a : Nat) (hInv : Inv m) :
    Inv (LoadByte m a).2 := by
  unfold LoadByte
  dsimp only
  split
  · exact hInv
  · next typ id heq =>
    by_cases hio : typ = bankTypeMain ∧ id = bankIOSwitches
    · obtain ⟨rfl, rfl⟩ := hio
      exact ioLoad_inv m _ hInv
    · rw [bankLoad_snd m typ id _ hio]
      exact hInv

lemma StoreByte_inv (m : Machine) (a v : Nat) (hInv : Inv m) :
    Inv (StoreByte m a v) := by
  unfold StoreByte
  dsimp only
  split
  · exact hInv
  · next typ id heq =>
    by_cases hio : typ = bankTypeMain ∧ id = bankIOSwitches
    · obtain ⟨rfl, rfl⟩ := hio
      exact ioStore_inv m _ _ hInv
    · obtain ⟨br, bw, bs, bu⟩ := bankStore_fields m typ id _ _ hio
      exact Inv_congr m _ br bw bs bu hInv

set_option maxRecDepth 8000 in
set_option maxHeartbeats 1000000 in
lemma Inv_init : Inv initMachine := by
  rw [initMachine_eq]
  refine ⟨?_, ?_, ⟨by decide, by decide, by decide⟩, ⟨by decide, by decide, by decide⟩,
    by decide, by decide, by decide, rfl, ?_, ?_⟩
  · intro p
    revert p
    decide
  · intro p
    revert p
    decide
  · exact fun h80 _ => absurd h80 (by decide)
  · exact fun h80 _ => absurd h80 (by decide)

/-- Every reachable machine state satisfies the invariant. -/
lemma reachable_inv (m : Machine) (h : Reachable m) : Inv m := by
  induction h with
  | init => exact Inv_init
  | load m a _ ih => exact LoadByte_inv m a ih
  | store m a v _ ih => exact StoreByte_inv m a v ih

/-- C1: starting from the freshly constructed system, loading $C080..$C08F
in ascending order returns 0xA0 from every load and steps the access state
of (LangCardEFRAM main, LangCardDX1RAM main, LangCardDX2RAM main,
SystemDEFROM) through the sixteen rows of the language-card truth table
(access encoding: R = 1, W = 2, R+W = 3, none = 0). -/
theorem c1_languageCard_truth_table :
    lcRun [0xc080, 0xc081, 0xc082, 0xc083, 0xc084, 0xc085, 0xc086, 0xc087,
           0xc088, 0xc089, 0xc08a, 0xc08b, 0xc08c, 0xc08d, 0xc08e, 0xc08f] initMachine =
    [(0xa0, 1, 0, 1, 2), (0xa0, 2, 0, 2, 1), (0xa0, 0, 0, 0, 3), (0xa0, 3, 0, 3, 0),
     (0xa0, 1, 0, 1, 2), (0xa0, 2, 0, 2, 1), (0xa0, 0, 0, 0, 3), (0xa0, 3, 0, 3, 0),
     (0xa0, 1, 1, 0, 2), (0xa0, 2, 2, 0, 1), (0xa0, 0, 0, 0, 3), (0xa0, 3, 3, 0, 0),
     (0xa0, 1, 1, 0, 2), (0xa0, 2, 2, 0, 1), (0xa0, 0, 0, 0, 3), (0xa0, 3, 3, 0, 0)] := by
  rw [initMachine_eq]
  simp only [lcRun, lcStep00, lcStep01, lcStep02, lcStep03, lcStep04, lcStep05, lcStep06, lcStep07, lcStep08, lcStep09, lcStep10, lcStep11, lcStep12, lcStep13, lcStep14, lcStep15]
  decide

/-- C5: starting from the freshly constructed system and executing the 14
(write, read) pairs in order, StoreByte(write, 0) followed by
LoadByte(read) returns a byte whose bit 7 is 0x80 exactly for the pairs
whose expected flag is true. -/
theorem c5_c00x_c01x_round_trip :
    c00xRun [(0xc002, 0xc013), (0xc003, 0xc013), (0xc004, 0xc014), (0xc005, 0xc014),
             (0xc006, 0xc015), (0xc007, 0xc015), (0xc008, 0xc016), (0xc009, 0xc016),
             (0xc00a, 0xc017), (0xc00b, 0xc017), (0xc00c, 0xc01f), (0xc00d, 0xc01f),
             (0xc00e, 0xc01e), (0xc00f, 0xc01e)] initMachine =
    [0, 0x80, 0, 0x80, 0, 0x80, 0, 0x80, 0, 0x80, 0, 0x80, 0, 0x80] := by
  rw [initMachine_eq]
  simp only [c00xRun, rtStore00, rtLoad00, rtStore01, rtLoad01, rtStore02, rtLoad02, rtStore03, rtLoad03, rtStore04, rtLoad04, rtStore05, rtLoad05, rtStore06, rtLoad06, rtStore07, rtLoad07, rtStore08, rtLoad08, rtStore09, rtLoad09, rtStore10, rtLoad10, rtStore11, rtLoad11, rtStore12, rtLoad12, rtStore13, rtLoad13]
  decide

lemma storeByte_eq (m : Machine) (addr v : Nat) (typ : bankType) (id : bankID)
    (h : m.pageWrite (pageIndex (addr % 0x10000)) = some (typ, id)) :
    StoreByte m addr v =
      bankStore m typ id ((addr % 0x10000 + 0x10000 - bankBaseAddr typ id) % 0x10000) (v % 256) := by
  unfold StoreByte
  dsimp only
  rw [h]

lemma bankBaseAddr_aligned (typ : bankType) (id : bankID) :
    bankBaseAddr typ id % 256 = 0 := by
  cases typ <;> cases id <;> decide

set_option maxRecDepth 8000 in
set_option maxHeartbeats 1000000 in
lemma c4Step0 : StoreByte st0 0xc001 0 = stB := by
  apply Machine.ext <;> first
    | rfl
    | (funext p; revert p; decide)

set_option maxRecDepth 8000 in
set_option maxHeartbeats 1000000 in
lemma c4Step1 : StoreByte stB 0xc055 0 = c4mC := by
  apply Machine.ext <;> first
    | rfl
    | (funext p; revert p; decide)

lemma c4m_eq : c4m = c4mC := by
  unfold c4m
  rw [initMachine_eq, c4Step0, c4Step1]

lemma testSoftSwitch_testBit (m : Machine) (sw : Nat) :
    testSoftSwitch m sw = m.switches.testBit sw := by
  unfold testSoftSwitch
  rw [Nat.shiftLeft_eq, one_mul, Nat.and_two_pow]
  cases h : m.switches.testBit sw
  · simp
  · have h2 : (2 : Nat) ^ sw ≠ 0 := by positivity
    simp [h2]

lemma switches_set_current (x sw : Nat) (hx : x < 2 ^ 32) (hsw : sw < 32) :
    (if x.testBit sw then x ||| (1 <<< sw)
     else x &&& (0xffffffff ^^^ (1 <<< sw))) = x := by
  cases h : x.testBit sw
  · simp only [Bool.false_eq_true, if_false]
    apply Nat.eq_of_testBit_eq
    intro i
    rw [Nat.testBit_and, Nat.testBit_xor,
      show (0xffffffff : Nat) = 2 ^ 32 - 1 from by norm_num,
      Nat.testBit_two_pow_sub_one, Nat.shiftLeft_eq, one_mul, Nat.testBit_two_pow]
    by_cases hi : i < 32
    · by_cases hisw : sw = i
      · subst hisw
        rw [h]
        simp
      · simp [hi, hisw]
    · have hxi : x.testBit i = false :=
        Nat.testBit_lt_two_pow (lt_of_lt_of_le hx (Nat.pow_le_pow_right (by omega) (by omega)))
      simp [hxi]
  · rw [if_pos rfl]
    apply Nat.eq_of_testBit_eq
    intro i
    rw [Nat.testBit_or, Nat.shiftLeft_eq, one_mul, Nat.testBit_two_pow]
    by_cases hisw : sw = i
    · subst hisw
      rw [h]
      simp
    · simp [hisw]

lemma and_ff00_eq (a : Nat) : a &&& 0xff00 = ((a >>> 8) % 256) <<< 8 := by
  rw [show (256 : Nat) = 2 ^ 8 from by norm_num]
  apply Nat.eq_of_testBit_eq
  intro i
  rw [Nat.testBit_and, Nat.testBit_shiftLeft, Nat.testBit_mod_two_pow, Nat.testBit_shiftRight]
  by_cases h8 : 8 ≤ i
  · by_cases h16 : i < 16
    · have hm : Nat.testBit 0xff00 i = true := by interval_cases i <;> decide
      rw [hm, show 8 + (i - 8) = i from by omega]
      simp [h8, show i - 8 < 8 from by omega]
    · have hm : Nat.testBit 0xff00 i = false := by
        apply Nat.testBit_lt_two_pow
        calc (0xff00 : Nat) < 2 ^ 16 := by norm_num
          _ ≤ 2 ^ i := Nat.pow_le_pow_right (by omega) (by omega)
      rw [hm]
      simp [show ¬(i - 8 < 8) from by omega]
  · have hi8 : i < 8 := by omega
    have hm : Nat.testBit 0xff00 i = false := by interval_cases i <;> decide
    rw [hm]
    simp [h8]

/-- C2: the spec's ALTZP scenario expects the pair (0x00, 0x5a): the load
of $0000 with ALTZP on is supposed to see a separate, still zeroed aux
zero page.  In the code, mmu.Init creates the aux-variant ZeroStackRAM
bank over m.mainRAM, so with ALTZP on the load still reads main RAM and
the scenario evaluates to (0x5a, 0x5a). -/
theorem c2_altzp_scenario_aux_backing :
    altzpScenario = (0x5a, 0x5a) ∧
    bankMem bankTypeAux bankZeroStackRAM = some (memRegion.mainR, 0x0000) :=
  ⟨by decide, rfl⟩

set_option maxRecDepth 10000 in
/-- C3: with IOUDIS just switched on through a $C07F write, the claimed
read behaviour of $C07E/$C07F (bit 7 of IOUDIS/DHIRES, clearing VBLINT)
does not occur: the switchBank dispatch table has no read handler in its
c07x row, so both loads return 0 and leave the state untouched. -/
theorem c3_c07x_reads_unhandled :
    Reachable c3State ∧
    testSoftSwitch c3State ioSwitchIOUDIS = true ∧
    getSoftSwitchBit7 c3State ioSwitchIOUDIS = 0x80 ∧
    LoadByte c3State 0xc07e = (0, c3State) ∧
    LoadByte c3State 0xc07f = (0, c3State) ∧
    switchBankRead 7 = none :=
  ⟨Reachable.store initMachine 0xc07f 0 Reachable.init, by decide, by decide, rfl, rfl, rfl⟩

/-- C4: in any reachable state with 80STORE on, a store to $0400..$07FF
lands in the aux RAM cell of the address when PAGE2 is on (main RAM
untouched), and in the main RAM cell when PAGE2 is off (aux RAM
untouched), independently of AUXRAMWRT. -/
theorem c4_80store_overlay (m : Machine) (a v : Nat) (hm : Reachable m)
    (ha1 : 0x400 ≤ a) (ha2 : a ≤ 0x7ff) (hv : v < 256)
    (h80 : testSoftSwitch m ioSwitch80STORE = true) :
    (testSoftSwitch m ioSwitchPAGE2 = true →
       (StoreByte m a v).auxRAM a = v ∧ (StoreByte m a v).mainRAM = m.mainRAM) ∧
    (testSoftSwitch m ioSwitchPAGE2 = false →
       (StoreByte m a v).mainRAM a = v ∧ (StoreByte m a v).auxRAM = m.auxRAM) := by
  obtain ⟨_, _, _, h4, _, _, _, _, hci⟩ := reachable_inv m hm
  obtain ⟨hu5, hu6, hu7⟩ := h4
  have hval : (pageIndex (a % 0x10000)).val = a / 256 := by
    show (a % 0x10000 % 0x10000) >>> 8 = a / 256
    rw [Nat.shiftRight_eq_div_pow, show (2 : Nat) ^ 8 = 256 from by norm_num]
    omega
  have hpw4 : m.pageWrite (pageIndex (a % 0x10000)) = m.pageWrite p4 := by
    have hdiv : a / 256 = 4 ∨ a / 256 = 5 ∨ a / 256 = 6 ∨ a / 256 = 7 := by omega
    rcases hdiv with h | h | h | h
    · rw [show pageIndex (a % 0x10000) = p4 from Fin.ext (by rw [hval, h]; rfl)]
    · rw [show pageIndex (a % 0x10000) = p5 from Fin.ext (by rw [hval, h]; rfl), hu5]
    · rw [show pageIndex (a % 0x10000) = p6 from Fin.ext (by rw [hval, h]; rfl), hu6]
    · rw [show pageIndex (a % 0x10000) = p7 from Fin.ext (by rw [hval, h]; rfl), hu7]
  have hoff : (a % 0x10000 + 0x10000 - 0x400) % 0x10000 = a - 0x400 := by omega
  constructor
  · intro hP
    have hpw : m.pageWrite (pageIndex (a % 0x10000)) = some (bankTypeAux, bankDisplayPage1) := by
      rw [hpw4]
      exact hci.1 h80 hP
    rw [storeByte_eq m a v bankTypeAux bankDisplayPage1 hpw,
      show bankBaseAddr bankTypeAux bankDisplayPage1 = 0x400 from rfl, hoff,
      show bankStore m bankTypeAux bankDisplayPage1 (a - 0x400) (v % 256) =
        memWrite m memRegion.auxR (0x400 + (a - 0x400)) (v % 256) from rfl]
    constructor
    · show (if a = 0x400 + (a - 0x400) then v % 256 else m.auxRAM a) = v
      rw [if_pos (by omega)]
      omega
    · rfl
  · intro hP
    have hpw : m.pageWrite (pageIndex (a % 0x10000)) = some (bankTypeMain, bankDisplayPage1) := by
      rw [hpw4]
      exact hci.2 h80 hP
    rw [storeByte_eq m a v bankTypeMain bankDisplayPage1 hpw,
      show bankBaseAddr bankTypeMain bankDisplayPage1 = 0x400 from rfl, hoff,
      show bankStore m bankTypeMain bankDisplayPage1 (a - 0x400) (v % 256) =
        memWrite m memRegion.mainR (0x400 + (a - 0x400)) (v % 256) from rfl]
    constructor
    · show (if a = 0x400 + (a - 0x400) then v % 256 else m.mainRAM a) = v
      rw [if_pos (by omega)]
      omega
    · rfl

set_option maxRecDepth 10000 in
/-- Witness for C4 at a concrete reachable state with 80STORE and PAGE2
on: the store to $0555 lands in aux RAM and main RAM is unchanged. -/
theorem c4_80store_overlay_witness :
    testSoftSwitch c4m ioSwitch80STORE = true ∧
    testSoftSwitch c4m ioSwitchPAGE2 = true ∧
    (StoreByte c4m 0x555 0xa5).auxRAM 0x555 = 0xa5 ∧
    (StoreByte c4m 0x555 0xa5).mainRAM = c4m.mainRAM := by
  have hr : Reachable c4m :=
    Reachable.store (StoreByte initMachine 0xc001 0) 0xc055 0
      (Reachable.store initMachine 0xc001 0 Reachable.init)
  have h80 : testSoftSwitch c4m ioSwitch80STORE = true := by
    rw [c4m_eq]
    decide
  have hP2 : testSoftSwitch c4m ioSwitchPAGE2 = true := by
    rw [c4m_eq]
    decide
  have h := (c4_80store_overlay c4m 0x555 0xa5 hr (by decide) (by decide) (by decide) h80).1 hP2
  exact ⟨h80, hP2, h.1, h.2⟩

set_option maxRecDepth 10000 in
/-- C6: for any reachable state and any address whose bank offset ends in
0xff, LoadAddress takes its low byte from the offset of the address and
its high byte from offset − 0xff of the same bank (no second page-table
dispatch); concretely, after writing 0xcd to $20FF and 0xab to $2000,
LoadAddress($20FF) returns 0xabcd. -/
theorem c6_loadAddress_page_wrap :
    (∀ (m : Machine) (a : Nat) (typ : bankType) (id : bankID),
      Reachable m → a < 0x10000 → a &&& 0xff = 0xff →
      m.pageRead (pageIndex a) = some (typ, id) →
      LoadAddress m a =
        ((bankLoad m typ id (a - bankBaseAddr typ id)).1 |||
           ((bankLoad (bankLoad m typ id (a - bankBaseAddr typ id)).2 typ id
              (a - bankBaseAddr typ id - 0xff)).1 <<< 8),
         (bankLoad (bankLoad m typ id (a - bankBaseAddr typ id)).2 typ id
            (a - bankBaseAddr typ id - 0xff)).2)) ∧
    (LoadAddress c6m 0x20ff).1 = 0xabcd := by
  constructor
  · intro m a typ id hm hlt hff hpr
    obtain ⟨hprOK, _, _, _, _, _, _, _, _⟩ := reachable_inv m hm
    have hp := hprOK (pageIndex a)
    rw [hpr] at hp
    simp only [Option.all_some, pageInRange, Bool.and_eq_true, decide_eq_true_eq] at hp
    obtain ⟨hple, _⟩ := hp
    have halign := bankBaseAddr_aligned typ id
    have hvala : (pageIndex a).val = a / 256 := by
      show (a % 0x10000) >>> 8 = a / 256
      rw [Nat.shiftRight_eq_div_pow, show (2 : Nat) ^ 8 = 256 from by norm_num]
      omega
    rw [hvala, Nat.shiftRight_eq_div_pow, show (2 : Nat) ^ 8 = 256 from by norm_num] at hple
    have hbase_le : bankBaseAddr typ id ≤ a := by omega
    have hmoda : a % 0x10000 = a := Nat.mod_eq_of_lt hlt
    have h0 := Nat.and_pow_two_sub_one_eq_mod a 8
    rw [show (2 : Nat) ^ 8 - 1 = 0xff from by norm_num,
      show (2 : Nat) ^ 8 = 256 from by norm_num] at h0
    have haff : a % 256 = 0xff := by
      rw [← h0]
      exact hff
    have hpaddr : (a + 0x10000 - bankBaseAddr typ id) % 0x10000 = a - bankBaseAddr typ id := by
      omega
    have h1 := Nat.and_pow_two_sub_one_eq_mod (a - bankBaseAddr typ id) 8
    rw [show (2 : Nat) ^ 8 - 1 = 0xff from by norm_num,
      show (2 : Nat) ^ 8 = 256 from by norm_num] at h1
    have hwrap : (a - bankBaseAddr typ id) &&& 0xff = 0xff := by
      rw [h1]
      omega
    unfold LoadAddress
    dsimp only
    rw [hmoda, hpr]
    dsimp only
    rw [hpaddr, if_pos hwrap]
  · decide

set_option maxRecDepth 10000 in
/-- Witness for C6 at the wrap scenario state: page $20 of c6m is served
by the main MainRAM bank, and LoadAddress($20FF) decomposes into two
loads of that bank at offsets $1EFF and $1E00. -/
theorem c6_loadAddress_page_wrap_witness :
    LoadAddress c6m 0x20ff =
      ((bankLoad c6m bankTypeMain bankMainRAM
          (0x20ff - bankBaseAddr bankTypeMain bankMainRAM)).1 |||
         ((bankLoad (bankLoad c6m bankTypeMain bankMainRAM
             (0x20ff - bankBaseAddr bankTypeMain bankMainRAM)).2 bankTypeMain bankMainRAM
            (0x20ff - bankBaseAddr bankTypeMain bankMainRAM - 0xff)).1 <<< 8),
       (bankLoad (bankLoad c6m bankTypeMain bankMainRAM
           (0x20ff - bankBaseAddr bankTypeMain bankMainRAM)).2 bankTypeMain bankMainRAM
          (0x20ff - bankBaseAddr bankTypeMain bankMainRAM - 0xff)).2) :=
  c6_loadAddress_page_wrap.1 c6m 0x20ff bankTypeMain bankMainRAM
    (Reachable.store (StoreByte initMachine 0x20ff 0xcd) 0x2000 0xab
      (Reachable.store initMachine 0x20ff 0xcd Reachable.init))
    (by decide) (by decide) (by decide)

/-- C7: setting any soft switch to the value it already holds changes
nothing: the machine is unchanged, so in particular the pending-update
mask and all 256 read and write page-table entries are bit-identical. -/
theorem c7_set_switch_to_current_value (m : Machine) (sw : Nat) (hm : Reachable m)
    (hsw : sw < ioSwitches) :
    setSoftSwitch m sw (testSoftSwitch m sw) = m ∧
    (setSoftSwitch m sw (testSoftSwitch m sw)).updates = m.updates ∧
    ∀ p : Fin 256,
      (setSoftSwitch m sw (testSoftSwitch m sw)).pageRead p = m.pageRead p ∧
      (setSoftSwitch m sw (testSoftSwitch m sw)).pageWrite p = m.pageWrite p := by
  obtain ⟨_, _, _, _, _, _, hsb, _, _⟩ := reachable_inv m hm
  have hsw32 : sw < 32 := Nat.lt_of_lt_of_le hsw (by decide)
  have hs : (if testSoftSwitch m sw then m.switches ||| (1 <<< sw)
      else m.switches &&& (0xffffffff ^^^ (1 <<< sw))) = m.switches := by
    rw [testSoftSwitch_testBit]
    exact switches_set_current m.switches sw hsb hsw32
  have hmain : setSoftSwitch m sw (testSoftSwitch m sw) = m := by
    unfold setSoftSwitch
    dsimp only
    rw [hs]
    rw [if_neg fun hcon => hcon rfl]
  exact ⟨hmain, by rw [hmain], fun p => ⟨by rw [hmain], by rw [hmain]⟩⟩

/-- Witness for C7 at the initial machine with switch 0. -/
theorem c7_set_switch_to_current_value_witness :
    0 < ioSwitches ∧
    setSoftSwitch initMachine 0 (testSoftSwitch initMachine 0) = initMachine :=
  ⟨by decide, (c7_set_switch_to_current_value initMachine 0 Reachable.init (by decide)).1⟩

/-- C8: in any reachable state, a load of an address outside the
$C000..$C0FF page returns the machine unchanged: no RAM, ROM or
soft-switch state is touched. -/
theorem c8_loadByte_frame (m : Machine) (a : Nat) (hm : Reachable m)
    (ha : a &&& 0xff00 ≠ 0xc000) :
    (LoadByte m a).2 = m := by
  obtain ⟨hprOK, _, _, _, _, _, _, _, _⟩ := reachable_inv m hm
  unfold LoadByte
  dsimp only
  split
  · rfl
  · next typ id heq =>
    apply bankLoad_snd
    rintro ⟨rfl, rfl⟩
    have hp := hprOK (pageIndex (a % 0x10000))
    rw [heq] at hp
    simp only [Option.all_some, pageInRange, Bool.and_eq_true, decide_eq_true_eq] at hp
    rw [show bankBaseAddr bankTypeMain bankIOSwitches >>> 8 = 0xc0 from rfl,
      show bankSize bankTypeMain bankIOSwitches >>> 8 = 1 from rfl] at hp
    have hval : (pageIndex (a % 0x10000)).val = a / 256 % 256 := by
      show (a % 0x10000 % 0x10000) >>> 8 = a / 256 % 256
      rw [Nat.shiftRight_eq_div_pow, show (2 : Nat) ^ 8 = 256 from by norm_num]
      omega
    rw [hval] at hp
    have hand := and_ff00_eq a
    rw [Nat.shiftRight_eq_div_pow, Nat.shiftLeft_eq,
      show (2 : Nat) ^ 8 = 256 from by norm_num] at hand
    apply ha
    rw [hand]
    omega

/-- Witness for C8 at the initial machine and address $1234. -/
theorem c8_loadByte_frame_witness :
    0x1234 &&& 0xff00 ≠ 0xc000 ∧ (LoadByte initMachine 0x1234).2 = initMachine :=
  ⟨by decide, c8_loadByte_frame initMachine 0x1234 Reachable.init (by decide)⟩

/-- C9: GetBankAccess computes its result solely from the page-table
entries at the bank's first page, so any two machines agreeing there get
the same report; and ActivateBank returns its input unchanged whenever
that first-page access mask equals the requested mask. -/
theorem c9_first_page_access (m mo : Machine) (typ : bankType) (id : bankID) (acc : Nat)
    (hr : m.pageRead (pageIndex (bankBaseAddr typ id)) =
      mo.pageRead (pageIndex (bankBaseAddr typ id)))
    (hw : m.pageWrite (pageIndex (bankBaseAddr typ id)) =
      mo.pageWrite (pageIndex (bankBaseAddr typ id))) :
    GetBankAccess m id typ = GetBankAccess mo id typ ∧
    (GetBankAccess m id typ = acc → ActivateBank m id typ acc = m) := by
  constructor
  · unfold GetBankAccess
    dsimp only
    rw [hr, hw]
  · intro hacc
    unfold ActivateBank
    rw [if_pos hacc]

/-- Witness for C9: st0 and a variant differing at page 5 (a non-first
page of the MainRAM bank) receive identical access reports, and
ActivateBank at the current access mask is a no-op. -/
theorem c9_first_page_access_witness :
    st0.pageRead p5 ≠ mAltC9.pageRead p5 ∧
    GetBankAccess st0 bankMainRAM bankTypeMain = GetBankAccess mAltC9 bankMainRAM bankTypeMain ∧
    ActivateBank st0 bankMainRAM bankTypeMain (GetBankAccess st0 bankMainRAM bankTypeMain) = st0 := by
  have h := c9_first_page_access st0 mAltC9 bankTypeMain bankMainRAM
    (GetBankAccess st0 bankMainRAM bankTypeMain) (by decide) (by decide)
  exact ⟨by decide, h.1, h.2 rfl⟩

/-- C10: every load of $C010 clears bit 7 of the keyboard data byte
unconditionally; when no key is down the returned value is 0 but the
strobe is still cleared. -/
theorem c10_keyboard_strobe_unconditional (m : Machine) (hm : Reachable m) :
    (LoadByte m 0xc010).2.keydata = m.keydata &&& 0x7f ∧
    (m.keydown = false → (LoadByte m 0xc010).1 = 0) := by
  obtain ⟨_, _, _, _, hio, _, _, hupd, _⟩ := reachable_inv m hm
  have hstep : LoadByte m 0xc010 =
      ((onSwitchReadC01x m 0x10).1, applySwitchUpdates (onSwitchReadC01x m 0x10).2) := by
    unfold LoadByte
    dsimp only
    rw [show pageIndex (0xc010 % 0x10000) = pc0 from rfl, hio]
    rfl
  have hc01snd : (onSwitchReadC01x m 0x10).2 = ResetKeyStrobe m := by
    show (if m.keydown then ((0x80 : Nat) ||| (GetKeyData (ResetKeyStrobe m) &&& 0x7f),
        ResetKeyStrobe m) else (0, ResetKeyStrobe m)).2 = ResetKeyStrobe m
    split
    · rfl
    · rfl
  have hasu : applySwitchUpdates (ResetKeyStrobe m) = ResetKeyStrobe m := by
    unfold applySwitchUpdates
    rw [if_pos (show (ResetKeyStrobe m).updates = 0 from hupd)]
  constructor
  · rw [hstep]
    show (applySwitchUpdates (onSwitchReadC01x m 0x10).2).keydata = m.keydata &&& 0x7f
    rw [hc01snd, hasu]
    rfl
  · intro hk
    rw [hstep]
    show (if m.keydown then ((0x80 : Nat) ||| (GetKeyData (ResetKeyStrobe m) &&& 0x7f),
        ResetKeyStrobe m) else (0, ResetKeyStrobe m)).1 = 0
    rw [hk]
    rfl

/-- Witness for C10 at the initial machine. -/
theorem c10_keyboard_strobe_unconditional_witness :
    (LoadByte initMachine 0xc010).2.keydata = initMachine.keydata &&& 0x7f ∧
    (initMachine.keydown = false → (LoadByte initMachine 0xc010).1 = 0) :=
  c10_keyboard_strobe_unconditional initMachine Reachable.init

end Apple2
